import Mathlib

/-!
# Storefront client: session, cart and API-error behaviour

A shallow embedding of `src/services/api.js`, of the state handlers of
`src/App.js` and of `Login.handleSubmit` (`src/components/Login.js`).

Modelling conventions

* `localStorage` is a finite map from keys to strings (`Storage`).
* The backend is a parameter `Network`: a function from the requests issued
  so far and the current request to the outcome of `fetch` (a transport
  failure with the message of the rejected promise, or an HTTP response).
* `response.json()`, `response.text()` and `JSON.parse` are platform
  functions; a response carries their results (`HttpResponse.json`,
  `HttpResponse.text`).
* JavaScript numbers (prices, quantities) are an arbitrary type `ν` with the
  platform's arithmetic given by the class `JsNumber`; nothing is assumed
  about that arithmetic.
* `Browser.trace` is a record of the calls made into `services/api` and of
  the `fetch` requests issued, in order; `Browser.timers` holds the callbacks
  registered with `setTimeout`.
* `async` handlers run to completion; a promise that is started without
  `await` (the call of `updateCartFromBackend` inside a handler) settles
  after the remaining synchronous statements of that handler.
-/

namespace Storefront

/-! ## JavaScript values -/

/-- A JavaScript value as far as the client inspects it: `undefined`, `null`,
booleans and strings; a number, given by what the client observes of it, its
string conversion (`10`, `2.5`, `1e+21`, `NaN`) and whether it is truthy
(neither zero nor `NaN`); and any object or array, of which only the string
conversion is observed. -/
inductive JsVal where
  | undefined
  | null
  | bool (b : Bool)
  | num (rendering : String) (nonzero : Bool)
  | str (s : String)
  | object (rendering : String)
  deriving DecidableEq, Repr

/-- JavaScript truthiness. -/
def JsVal.truthy : JsVal → Bool
  | .undefined => false
  | .null => false
  | .bool b => b
  | .num _ nonzero => nonzero
  | .str s => s != ""
  | .object _ => true

/-- String conversion as performed by a template literal and by
`localStorage.setItem`. -/
def JsVal.toStr : JsVal → String
  | .undefined => "undefined"
  | .null => "null"
  | .bool true => "true"
  | .bool false => "false"
  | .num rendering _ => rendering
  | .str s => s
  | .object r => r

/-- The operator `a || b`. -/
def JsVal.or (a b : JsVal) : JsVal := if a.truthy then a else b

/-- The operator `a || b` on a string `a` and a fallback string `b`, as in
`error.message || "..."`. -/
def orElse (a b : String) : String := if a = "" then b else a

/-- Truthiness of the result of `localStorage.getItem`. -/
def truthyItem : Option String → Bool
  | none => false
  | some s => s != ""

/-- Whether `pat` occurs in `s` starting at some position of the list. -/
def includesChars (pat : List Char) : List Char → Bool
  | [] => pat.isEmpty
  | c :: cs => pat.isPrefixOf (c :: cs) || includesChars pat cs

/-- The method `s.includes(pat)`. -/
def includes (s pat : String) : Bool := includesChars pat.data s.data

/-- A thrown `Error` (also `TypeError`, `SyntaxError`): its `message`. -/
structure JsError where
  message : String
  deriving DecidableEq, Repr

/-- The `TypeError` raised when a property of `null` is read (V8 wording). -/
def nullPropertyError (prop : String) : JsError :=
  ⟨"Cannot read properties of null (reading '" ++ prop ++ "')"⟩

/-- The `TypeError` raised when `data.map` is called on a value that is not
an array (V8 wording). -/
def notAFunctionError (expr : String) : JsError :=
  ⟨expr ++ " is not a function"⟩

/-- The platform's number arithmetic, as used by the cart totals. -/
class JsNumber (ν : Type) where
  zero : ν
  add : ν → ν → ν
  mul : ν → ν → ν
  toFixed2 : ν → String

/-! ## localStorage -/

/-- The contents of `localStorage`. -/
abbrev Storage := String → Option String

/-- Storage with no key. -/
def Storage.empty : Storage := fun _ => none

/-- `localStorage.getItem(k)`. -/
def Storage.getItem (s : Storage) (k : String) : Option String := s k

/-- `localStorage.setItem(k, v)`. -/
def Storage.setItem (s : Storage) (k v : String) : Storage :=
  fun k' => if k' = k then some v else s k'

/-- `localStorage.removeItem(k)`. -/
def Storage.removeItem (s : Storage) (k : String) : Storage :=
  fun k' => if k' = k then none else s k'

/-! ## Requests, responses, the browser -/

/-- One entry of the array returned by `GET /cart`. -/
structure ServerCartLine (ν : Type) where
  productId : String
  productName : String
  price : ν
  imageUrl : String
  quantity : ν
  deriving DecidableEq, Repr

/-- One entry of `cartItems`. -/
structure CartItem (ν : Type) where
  id : String
  name : String
  price : ν
  imageUrl : String
  quantity : ν
  deriving DecidableEq, Repr

/-- One entry of the `items` array sent by `placeOrder`. -/
structure OrderItem (ν : Type) where
  productId : String
  quantity : ν
  deriving DecidableEq, Repr

/-- The `shippingDetails` object. -/
structure ShippingDetails where
  shippingAddress : String
  shippingCity : String
  shippingPostalCode : String
  shippingCountry : String
  deriving DecidableEq, Repr

/-- The object passed to `JSON.stringify` for the request body. -/
inductive ReqBody (ν : Type) where
  | none
  | cartLine (productId : String) (quantity : Int)
  | registration (name email password : String)
  | credentials (email password : String)
  | order (items : List (OrderItem ν)) (shipping : ShippingDetails)
  deriving DecidableEq, Repr

/-- A `fetch` request. -/
structure Request (ν : Type) where
  method : String
  url : String
  headers : List (String × String)
  body : ReqBody ν
  deriving DecidableEq, Repr

/-- A parsed JSON body as far as the client inspects it: `null`, an array of
cart lines, or any other value, given by its properties (a value without the
property read yields `undefined`). -/
inductive JsonBody (ν : Type) where
  | null
  | object (fields : List (String × JsVal))
  | array (items : List (ServerCartLine ν))
  deriving DecidableEq, Repr

/-- Reading property `name` of a parsed body. -/
def JsonBody.prop {ν : Type} (j : JsonBody ν) (name : String) : Except JsError JsVal :=
  match j with
  | .null => .error (nullPropertyError name)
  | .object fields => .ok ((fields.lookup name).getD .undefined)
  | .array _ => .ok .undefined

/-- An HTTP response: status line, the body text (`response.text()`), and
the outcome of parsing the body as JSON (`response.json()`,
`JSON.parse(text)`), an error carrying the `SyntaxError` message. -/
structure HttpResponse (ν : Type) where
  status : Nat
  statusText : String
  text : String
  json : Except String (JsonBody ν)

/-- The field `response.ok`: the status is in the range 200-299. -/
def HttpResponse.ok {ν : Type} (r : HttpResponse ν) : Bool :=
  decide (200 ≤ r.status) && decide (r.status ≤ 299)

/-- The backend and the transport: from the requests issued so far and the
current request to the outcome of `fetch`. -/
abbrev Network (ν : Type) := List (Request ν) → Request ν → Except String (HttpResponse ν)

/-- The operations of `services/api` whose calls are recorded. -/
inductive Op where
  | fetchProducts
  | addToCart
  | fetchCartItems
  | removeCartItem
  | registerUser
  | loginUser
  | placeOrder
  | fetchOrderHistory
  | clearAuthToken
  deriving DecidableEq, Repr

/-- An entry of the call record. -/
inductive Event (ν : Type) where
  | called (op : Op)
  | fetch (req : Request ν)
  deriving DecidableEq, Repr

/-- The callbacks the controller registers with `setTimeout`. -/
inductive TimerAction where
  | hideCheckoutMessage
  deriving DecidableEq, Repr

/-- A pending `setTimeout` callback. -/
structure Timer where
  delay : Nat
  action : TimerAction
  deriving DecidableEq, Repr

/-- The browser side of the state: storage, call record, pending timers. -/
structure Browser (ν : Type) where
  storage : Storage
  trace : List (Event ν)
  timers : List Timer

/-- The requests of a call record, in order. -/
def requestsOf {ν : Type} : List (Event ν) → List (Request ν)
  | [] => []
  | .fetch r :: es => r :: requestsOf es
  | .called _ :: es => requestsOf es

/-- The number of calls of `op` in a call record. -/
def callCount {ν : Type} (op : Op) : List (Event ν) → Nat
  | [] => 0
  | .called o :: es => (if o = op then 1 else 0) + callCount op es
  | .fetch _ :: es => callCount op es

/-- Records a call of `op`. -/
def Browser.call {ν : Type} (b : Browser ν) (op : Op) : Browser ν :=
  { b with trace := b.trace ++ [Event.called op] }

/-- Records a `fetch` request. -/
def Browser.send {ν : Type} (b : Browser ν) (req : Request ν) : Browser ν :=
  { b with trace := b.trace ++ [Event.fetch req] }

/-- The outcome of the platform function `fetch` for a request issued from
browser state `b` (the request is recorded by `Browser.send`). -/
def fetch {ν : Type} (net : Network ν) (req : Request ν) (b : Browser ν) :
    Except String (HttpResponse ν) :=
  net (requestsOf b.trace) req

/-! ## services/api.js -/

/-- The constant `API_BASE_URL` (its default value). -/
def API_BASE_URL : String := "http://localhost:8080/api"

/-- `getAuthToken`. -/
def getAuthToken {ν : Type} (b : Browser ν) : Option String :=
  b.storage.getItem "jwtToken"

/-- `setAuthToken`. -/
def setAuthToken {ν : Type} (token : String) (b : Browser ν) : Browser ν :=
  { b with storage := b.storage.setItem "jwtToken" token }

/-- `clearAuthToken`. -/
def clearAuthToken {ν : Type} (b : Browser ν) : Browser ν :=
  let b := b.call Op.clearAuthToken
  { b with storage := ((b.storage.removeItem "jwtToken").removeItem "userId").removeItem "username" }

/-- String conversion of a token inside a template literal (`null` when the
key is absent). -/
def tokenStr : Option String → String
  | none => "null"
  | some t => t

/-- `getAuthHeaders`. -/
def getAuthHeaders (token : Option String) : List (String × String) :=
  [("Content-Type", "application/json"), ("Authorization", "Bearer " ++ tokenStr token)]

/-- `await response.json().catch(() => ({ message: 'Unknown error' }))`. -/
def jsonOrUnknown {ν : Type} (response : HttpResponse ν) : JsonBody ν :=
  match response.json with
  | .ok j => j
  | .error _ => .object [("message", .str "Unknown error")]

/-- The two statements of the `if (!response.ok)` block that `addToCart`,
`fetchCartItems`, `removeCartItem`, `registerUser`, `placeOrder` and
`fetchOrderHistory` share word for word: the error they throw. -/
def errorDataError {ν : Type} (response : HttpResponse ν) : JsError :=
  match (jsonOrUnknown response).prop "message" with
  | .error e => e
  | .ok message =>
    ⟨"HTTP error! status: " ++ toString response.status ++ " - " ++
      (message.or (.str response.statusText)).toStr⟩

/-- `await response.json()` on the success path. -/
def awaitJson {ν : Type} (response : HttpResponse ν) : Except JsError (JsonBody ν) :=
  match response.json with
  | .ok j => .ok j
  | .error m => .error ⟨m⟩

/-- `fetchProducts`. -/
def fetchProducts {ν : Type} (net : Network ν) (b : Browser ν) :
    Except JsError (JsonBody ν) × Browser ν :=
  let b := b.call Op.fetchProducts
  let req : Request ν := ⟨"GET", API_BASE_URL ++ "/products", [], .none⟩
  let b' := b.send req
  match fetch net req b with
  | .error m => (.error ⟨m⟩, b')
  | .ok response =>
    if !response.ok then
      (.error ⟨"HTTP error! status: " ++ toString response.status ++ " - " ++ response.statusText⟩, b')
    else (awaitJson response, b')

/-- `addToCart`. -/
def addToCart {ν : Type} (net : Network ν) (productId : String) (quantity : Int)
    (token : Option String) (b : Browser ν) : Except JsError (JsonBody ν) × Browser ν :=
  let b := b.call Op.addToCart
  let req : Request ν := ⟨"POST", API_BASE_URL ++ "/cart", getAuthHeaders token,
      .cartLine productId quantity⟩
  let b' := b.send req
  match fetch net req b with
  | .error m => (.error ⟨m⟩, b')
  | .ok response =>
    if !response.ok then (.error (errorDataError response), b')
    else (awaitJson response, b')

/-- `fetchCartItems`. -/
def fetchCartItems {ν : Type} (net : Network ν) (token : Option String) (b : Browser ν) :
    Except JsError (JsonBody ν) × Browser ν :=
  let b := b.call Op.fetchCartItems
  let req : Request ν := ⟨"GET", API_BASE_URL ++ "/cart", getAuthHeaders token, .none⟩
  let b' := b.send req
  match fetch net req b with
  | .error m => (.error ⟨m⟩, b')
  | .ok response =>
    if !response.ok then (.error (errorDataError response), b')
    else (awaitJson response, b')

/-- `removeCartItem`. -/
def removeCartItem {ν : Type} (net : Network ν) (productId : String) (quantityToRemove : Int)
    (token : Option String) (b : Browser ν) : Except JsError Unit × Browser ν :=
  let b := b.call Op.removeCartItem
  let req : Request ν := ⟨"POST", API_BASE_URL ++ "/cart/remove", getAuthHeaders token,
      .cartLine productId quantityToRemove⟩
  let b' := b.send req
  match fetch net req b with
  | .error m => (.error ⟨m⟩, b')
  | .ok response =>
    if !response.ok then (.error (errorDataError response), b')
    else (.ok (), b')

/-- The statements of `registerUser` and `loginUser` after
`const data = await response.json()`: the three `setItem` calls, then
`return data`. Reading `data.jwtToken` throws when `data` is `null`. -/
def persistSession {ν : Type} (data : JsonBody ν) (b : Browser ν) :
    Except JsError (JsonBody ν) × Browser ν :=
  match data.prop "jwtToken" with
  | .error e => (.error e, b)
  | .ok jwtToken =>
    let b := setAuthToken jwtToken.toStr b
    match data.prop "userId" with
    | .error e => (.error e, b)
    | .ok userId =>
      let b := { b with storage := b.storage.setItem "userId" userId.toStr }
      match data.prop "username" with
      | .error e => (.error e, b)
      | .ok username =>
        (.ok data, { b with storage := b.storage.setItem "username" username.toStr })

/-- `registerUser`, called with `{ name, email, password }`. -/
def registerUser {ν : Type} (net : Network ν) (name email password : String) (b : Browser ν) :
    Except JsError (JsonBody ν) × Browser ν :=
  let b := b.call Op.registerUser
  let req : Request ν := ⟨"POST", API_BASE_URL ++ "/auth/register",
      [("Content-Type", "application/json")], .registration name email password⟩
  let b' := b.send req
  match fetch net req b with
  | .error m => (.error ⟨m⟩, b')
  | .ok response =>
    if !response.ok then (.error (errorDataError response), b')
    else
      match awaitJson response with
      | .error e => (.error e, b')
      | .ok data => persistSession data b'

/-- The error message `loginUser` builds in its `if (!response.ok)` block. -/
def loginErrorMessage {ν : Type} (response : HttpResponse ν) : String :=
  let errorText := response.text
  let errorMessage := "HTTP error! status: " ++ toString response.status
  match response.json with
  | .error _ => errorMessage ++ " - " ++ errorText
  | .ok errorJson =>
    match errorJson.prop "message", errorJson.prop "error" with
    | .ok message, .ok error =>
      errorMessage ++ " - " ++ ((message.or error).or (.str "Unknown Error")).toStr
    | _, _ => errorMessage ++ " - " ++ errorText

/-- `loginUser`. -/
def loginUser {ν : Type} (net : Network ν) (email password : String) (b : Browser ν) :
    Except JsError (JsonBody ν) × Browser ν :=
  let b := b.call Op.loginUser
  let req : Request ν := ⟨"POST", API_BASE_URL ++ "/auth/login",
      [("Content-Type", "application/json")], .credentials email password⟩
  let b' := b.send req
  match fetch net req b with
  | .error m => (.error ⟨m⟩, b')
  | .ok response =>
    if !response.ok then (.error ⟨loginErrorMessage response⟩, b')
    else
      match awaitJson response with
      | .error e => (.error e, b')
      | .ok data => persistSession data b'

/-- `placeOrder`. -/
def placeOrder {ν : Type} (net : Network ν) (cartItems : List (CartItem ν))
    (shippingDetails : ShippingDetails) (b : Browser ν) :
    Except JsError (JsonBody ν) × Browser ν :=
  let b := b.call Op.placeOrder
  let token := getAuthToken b
  if !truthyItem token then (.error ⟨"No authentication token found. Please log in."⟩, b)
  else
    let orderItems := cartItems.map fun item => (⟨item.id, item.quantity⟩ : OrderItem ν)
    let req : Request ν := ⟨"POST", API_BASE_URL ++ "/orders",
        [("Content-Type", "application/json"), ("Authorization", "Bearer " ++ tokenStr token)],
        .order orderItems shippingDetails⟩
    let b' := b.send req
    match fetch net req b with
    | .error m => (.error ⟨m⟩, b')
    | .ok response =>
      if !response.ok then (.error (errorDataError response), b')
      else (awaitJson response, b')

/-- `fetchOrderHistory`. -/
def fetchOrderHistory {ν : Type} (net : Network ν) (authToken : Option String) (b : Browser ν) :
    Except JsError (JsonBody ν) × Browser ν :=
  let b := b.call Op.fetchOrderHistory
  let req : Request ν := ⟨"GET", API_BASE_URL ++ "/orders",
      [("Authorization", "Bearer " ++ tokenStr authToken)], .none⟩
  let b' := b.send req
  match fetch net req b with
  | .error m => (.error ⟨m⟩, b')
  | .ok response =>
    if !response.ok then (.error (errorDataError response), b')
    else (awaitJson response, b')

/-! ## App.js: controller state and handlers -/

/-- A catalog product as passed to `handleAddToCart`. -/
structure Product (ν : Type) where
  id : String
  name : String
  description : String
  price : ν
  imageUrl : String
  deriving DecidableEq, Repr

/-- The object held by `currentUser`. -/
structure User where
  id : JsVal
  username : JsVal
  deriving DecidableEq, Repr

/-- The `useState` cells of `App`. `none` stands for `null`. -/
structure AppState (ν : Type) where
  isLoggedIn : Bool
  currentUser : Option User
  currentPage : String
  cartItems : List (CartItem ν)
  isCartOpen : Bool
  showCheckoutMessage : Bool
  checkoutError : Option String
  fetchError : Option String
  deriving DecidableEq, Repr

/-- The initial values of the `useState` cells. -/
def AppState.initial {ν : Type} : AppState ν :=
  { isLoggedIn := false, currentUser := none, currentPage := "products", cartItems := [],
    isCartOpen := false, showCheckoutMessage := false, checkoutError := some "",
    fetchError := none }

/-- Controller state together with the browser. -/
structure World (ν : Type) where
  app : AppState ν
  browser : Browser ν

/-- `handleLogout`. -/
def handleLogout {ν : Type} (w : World ν) : World ν :=
  let b := clearAuthToken w.browser
  { app := { w.app with
      isLoggedIn := false, currentUser := none, cartItems := [], currentPage := "products",
      fetchError := none, checkoutError := none },
    browser := b }

/-- The callback of `data.map` in `updateCartFromBackend`. -/
def formatCartItem {ν : Type} (item : ServerCartLine ν) : CartItem ν :=
  { id := item.productId, name := item.productName, price := item.price,
    imageUrl := item.imageUrl, quantity := item.quantity }

/-- `data.map(item => ...)` in `updateCartFromBackend`; a `TypeError` when
`data` is not an array. -/
def formatCartItems {ν : Type} : JsonBody ν → Except JsError (List (CartItem ν))
  | .array items => .ok (items.map formatCartItem)
  | .null => .error (nullPropertyError "map")
  | .object _ => .error (notAFunctionError "data.map")

/-- The `catch` block of `updateCartFromBackend`. -/
def updateCartCatch {ν : Type} (error : JsError) (w : World ν) : World ν :=
  let w1 : World ν := { w with app := { w.app with
    fetchError := some (orElse error.message
      "Failed to load cart. Please log in again if session expired.") } }
  if includes error.message "Session expired" then handleLogout w1 else w1

/-- `updateCartFromBackend`; `isLoggedIn` is the value captured by the
callback (`useCallback(..., [isLoggedIn])`). -/
def updateCartFromBackend {ν : Type} (net : Network ν) (isLoggedIn : Bool) (w : World ν) :
    World ν :=
  if isLoggedIn && truthyItem (w.browser.storage.getItem "jwtToken") then
    match fetchCartItems net (w.browser.storage.getItem "jwtToken") w.browser with
    | (.error error, b) => updateCartCatch error { w with browser := b }
    | (.ok data, b) =>
      match formatCartItems data with
      | .error error => updateCartCatch error { w with browser := b }
      | .ok formattedCartItems =>
        { app := { w.app with cartItems := formattedCartItems, fetchError := none },
          browser := b }
  else { w with app := { w.app with cartItems := [] } }

/-- The effect `useEffect(() => { updateCartFromBackend(); },
[updateCartFromBackend])` after a render: the callback is rebuilt, and the
effect runs, when `isLoggedIn` differs from its value `prev` at the previous
render. -/
def cartEffect {ν : Type} (net : Network ν) (prev : Bool) (w : World ν) : World ν :=
  if w.app.isLoggedIn = prev then w else updateCartFromBackend net w.app.isLoggedIn w

/-- `totalCartItems`. -/
def totalCartItems {ν : Type} [JsNumber ν] (app : AppState ν) : ν :=
  app.cartItems.foldl (fun sum item => JsNumber.add sum item.quantity) JsNumber.zero

/-- `handleAddToCart`. -/
def handleAddToCart {ν : Type} (net : Network ν) (product : Product ν) (w : World ν) :
    World ν :=
  if !w.app.isLoggedIn then
    { w with app := { w.app with fetchError := some "Please log in to add items to your cart." } }
  else
    match addToCart net product.id 1 (w.browser.storage.getItem "jwtToken") w.browser with
    | (.ok _, b) =>
      updateCartFromBackend net w.app.isLoggedIn
        { app := { w.app with isCartOpen := true, fetchError := none }, browser := b }
    | (.error error, b) =>
      { app := { w.app with
          fetchError := some (orElse error.message "Failed to add product to cart. Please try again.") },
        browser := b }

/-- `handleRemoveFromCart`. -/
def handleRemoveFromCart {ν : Type} (net : Network ν) (productId : String) (w : World ν) :
    World ν :=
  if !w.app.isLoggedIn then w
  else
    match removeCartItem net productId 1 (w.browser.storage.getItem "jwtToken") w.browser with
    | (.ok _, b) =>
      updateCartFromBackend net w.app.isLoggedIn
        { app := { w.app with fetchError := none }, browser := b }
    | (.error error, b) =>
      { app := { w.app with
          fetchError := some (orElse error.message "Failed to remove product. Please try again.") },
        browser := b }

/-- `handleRemoveAllOfItem`. -/
def handleRemoveAllOfItem {ν : Type} (net : Network ν) (productId : String) (w : World ν) :
    World ν :=
  if !w.app.isLoggedIn then w
  else
    match removeCartItem net productId (-1) (w.browser.storage.getItem "jwtToken") w.browser with
    | (.ok _, b) =>
      updateCartFromBackend net w.app.isLoggedIn
        { app := { w.app with fetchError := none }, browser := b }
    | (.error error, b) =>
      { app := { w.app with
          fetchError := some (orElse error.message "Failed to remove all items. Please try again.") },
        browser := b }

/-- `calculateTotalPrice`. -/
def calculateTotalPrice {ν : Type} [JsNumber ν] (app : AppState ν) : String :=
  JsNumber.toFixed2 (app.cartItems.foldl
    (fun total item => JsNumber.add total (JsNumber.mul item.price item.quantity)) JsNumber.zero)

/-- The constant `shippingDetails` of `handleCheckout`. -/
def shippingDetails : ShippingDetails :=
  { shippingAddress := "123 Main St", shippingCity := "Anytown",
    shippingPostalCode := "12345", shippingCountry := "USA" }

/-- `handleCheckout`. -/
def handleCheckout {ν : Type} (net : Network ν) (w : World ν) : World ν :=
  let app : AppState ν := { w.app with checkoutError := some "", fetchError := none }
  if !w.app.isLoggedIn then
    { w with app := { app with
        checkoutError := some "Please log in to place an order.", currentPage := "login" } }
  else if w.app.cartItems.length = 0 then
    { w with app := { app with
        checkoutError := some "Your cart is empty. Add items before checking out." } }
  else
    match placeOrder net w.app.cartItems shippingDetails w.browser with
    | (.ok _, b) =>
      { app := { app with cartItems := [], isCartOpen := false, showCheckoutMessage := true },
        browser := { b with timers := b.timers ++ [⟨3000, .hideCheckoutMessage⟩] } }
    | (.error error, b) =>
      { app := { app with
          checkoutError := some (orElse error.message "Failed to place order. Please try again.") },
        browser := b }

/-- Running a callback registered with `setTimeout`. -/
def runTimer {ν : Type} (action : TimerAction) (app : AppState ν) : AppState ν :=
  match action with
  | .hideCheckoutMessage => { app with showCheckoutMessage := false }

/-- The `try` block of `handleLoginSuccess` and of `handleRegisterSuccess`
after the awaited call returned `response`; `fallback` is the text the
`catch` block uses for an error without message. -/
def afterAuth {ν : Type} (net : Network ν) (fallback : String) (response : JsonBody ν)
    (w : World ν) : World ν :=
  let app1 : AppState ν := { w.app with isLoggedIn := true }
  match response.prop "userId", response.prop "username" with
  | .ok userId, .ok username =>
    updateCartFromBackend net w.app.isLoggedIn
      { w with app := { app1 with
          currentUser := some ⟨userId, username⟩, currentPage := "products",
          fetchError := none } }
  | .error error, _ =>
    { w with app := { app1 with fetchError := some (orElse error.message fallback) } }
  | _, .error error =>
    { w with app := { app1 with fetchError := some (orElse error.message fallback) } }

/-- `handleLoginSuccess`. -/
def handleLoginSuccess {ν : Type} (net : Network ν) (email password : String) (w : World ν) :
    World ν :=
  match loginUser net email password w.browser with
  | (.ok response, b) =>
    afterAuth net "Login failed. Please check your credentials." response { w with browser := b }
  | (.error error, b) =>
    { app := { w.app with
          fetchError := some (orElse error.message "Login failed. Please check your credentials.") },
      browser := b }

/-- `handleRegisterSuccess`. -/
def handleRegisterSuccess {ν : Type} (net : Network ν) (name email password : String)
    (w : World ν) : World ν :=
  match registerUser net name email password w.browser with
  | (.ok response, b) =>
    afterAuth net "Registration failed. This email might already be registered." response
      { w with browser := b }
  | (.error error, b) =>
    { app := { w.app with
          fetchError := some (orElse error.message
          "Registration failed. This email might already be registered.") },
      browser := b }

/-! ## components/Login.js -/

/-- The `useState` cells of the `Login` component. -/
structure LoginForm where
  email : String
  password : String
  error : String
  loading : Bool
  deriving DecidableEq, Repr

/-- `handleSubmit` of the `Login` component, with `onLoginSuccess` bound to
`handleLoginSuccess` as in `renderPage`. -/
def Login.handleSubmit {ν : Type} (net : Network ν) (form : LoginForm) (w : World ν) :
    LoginForm × World ν :=
  match loginUser net form.email form.password w.browser with
  | (.ok _, b) =>
    ({ form with error := "", loading := false },
      handleLoginSuccess net form.email form.password { w with browser := b })
  | (.error err, b) =>
    ({ form with
        error := orElse err.message "Login failed. Please check your credentials.",
        loading := false },
      { w with browser := b })

/-! ## Concrete data for the examples -/

/-- JavaScript arithmetic on whole numbers (exact below `2^53`), with
`toFixed(2)` printing the number followed by `.00`. -/
def wholeNumbers : JsNumber Int :=
  { zero := 0, add := fun a b => a + b, mul := fun a b => a * b,
    toFixed2 := fun a => toString a ++ ".00" }

/-- A browser with empty storage, no call made, no timer pending. -/
def Browser.fresh {ν : Type} : Browser ν := { storage := Storage.empty, trace := [], timers := [] }

/-- The network that answers every request with the response `r`. -/
def respond {ν : Type} (r : HttpResponse ν) : Network ν := fun _ _ => .ok r

/-- The state right after the application is loaded with empty storage. -/
def visitor : World Int := { app := AppState.initial, browser := Browser.fresh }

/-- The cart of the checkout example: two units of `p1` at 10.00. -/
def exampleCart : List (CartItem Int) :=
  [{ id := "p1", name := "Widget", price := 10, imageUrl := "/p1.png", quantity := 2 }]

/-- Storage holding a session. -/
def sessionStorage : Storage :=
  ((Storage.empty.setItem "jwtToken" "tok-1").setItem "userId" "u1").setItem
    "username" "ann@example.com"

/-- A logged-in user whose cart is `cart`. -/
def shopper (cart : List (CartItem Int)) : World Int :=
  { app := { (AppState.initial : AppState Int) with
      isLoggedIn := true,
      currentUser := some ⟨.str "u1", .str "ann@example.com"⟩,
      cartItems := cart },
    browser := { storage := sessionStorage, trace := [], timers := [] } }

/-- A `200 OK` response with the JSON body `\x7b"orderId":1\x7d`. -/
def orderConfirmation : HttpResponse Int :=
  { status := 200, statusText := "OK", text := "\x7b\"orderId\":1\x7d",
    json := .ok (.object [("orderId", .num "1" true)]) }

/-- A `401` response with the JSON body `\x7b"message":"Invalid credentials"\x7d`. -/
def invalidCredentials : HttpResponse Int :=
  { status := 401, statusText := "Unauthorized",
    text := "\x7b\"message\":\"Invalid credentials\"\x7d",
    json := .ok (.object [("message", .str "Invalid credentials")]) }

/-- A `401` response with the JSON body `\x7b"message":"Session expired"\x7d`. -/
def sessionExpired : HttpResponse Int :=
  { status := 401, statusText := "Unauthorized",
    text := "\x7b\"message\":\"Session expired\"\x7d",
    json := .ok (.object [("message", .str "Session expired")]) }

/-! ## Sequences of cart operations -/

/-- A cart mutation raised by the views. -/
inductive CartOp (ν : Type) where
  | add (product : Product ν)
  | decrement (productId : String)
  | remove (productId : String)
  deriving DecidableEq, Repr

/-- The handler the controller runs for a cart mutation. -/
def applyCartOp {ν : Type} (net : Network ν) : CartOp ν → World ν → World ν
  | .add product => handleAddToCart net product
  | .decrement productId => handleRemoveFromCart net productId
  | .remove productId => handleRemoveAllOfItem net productId

/-- Running the handlers of a sequence of cart mutations, one after the other. -/
def applyCartOps {ν : Type} (net : Network ν) (ops : List (CartOp ν)) (w : World ν) : World ν :=
  ops.foldl (fun w op => applyCartOp net op w) w

/-- The browser after the request of a cart mutation, when that request succeeds. -/
def mutationSucceeds {ν : Type} (net : Network ν) (op : CartOp ν) (w : World ν) :
    Option (Browser ν) :=
  match op with
  | .add product =>
    match addToCart net product.id 1 (w.browser.storage.getItem "jwtToken") w.browser with
    | (.ok _, b) => some b
    | (.error _, _) => none
  | .decrement productId =>
    match removeCartItem net productId 1 (w.browser.storage.getItem "jwtToken") w.browser with
    | (.ok _, b) => some b
    | (.error _, _) => none
  | .remove productId =>
    match removeCartItem net productId (-1) (w.browser.storage.getItem "jwtToken") w.browser with
    | (.ok _, b) => some b
    | (.error _, _) => none

/-- The cart the server returns to the re-fetch that follows a cart mutation,
when the operation is successful: the user is logged in with a stored token,
the mutation request succeeds and the re-fetch is answered with an array. -/
def cartOpSnapshot {ν : Type} (net : Network ν) (op : CartOp ν) (w : World ν) :
    Option (List (ServerCartLine ν)) :=
  if w.app.isLoggedIn && truthyItem (w.browser.storage.getItem "jwtToken") then
    match mutationSucceeds net op w with
    | none => none
    | some b =>
      match fetchCartItems net (w.browser.storage.getItem "jwtToken") b with
      | (.ok (.array lines), _) => some lines
      | _ => none
  else none

/-- The last cart returned by the server along a sequence of cart mutations
run from `w`, when every one of them is successful (`none` otherwise, and for
the empty sequence). -/
def confirmedSnapshot {ν : Type} (net : Network ν) :
    List (CartOp ν) → World ν → Option (List (ServerCartLine ν))
  | [], _ => none
  | [op], w => cartOpSnapshot net op w
  | op :: next :: ops, w =>
    match cartOpSnapshot net op w with
    | none => none
    | some _ => confirmedSnapshot net (next :: ops) (applyCartOp net op w)

/-- The sum of a list of numbers, added from left to right starting at zero. -/
def sumOf {ν : Type} [JsNumber ν] (xs : List ν) : ν := xs.foldl JsNumber.add JsNumber.zero

/-- The total of the specification: the sum of `price × quantity` over the
lines of a server cart, printed with two decimals. -/
def snapshotTotal {ν : Type} [JsNumber ν] (lines : List (ServerCartLine ν)) : String :=
  JsNumber.toFixed2 (sumOf (lines.map fun line => JsNumber.mul line.price line.quantity))

/-- A backend whose cart holds product `p1` at 10.00, in a quantity equal to
the number of requests to `/cart/remove` subtracted from the number of other
`POST` requests received so far; it accepts every request. -/
def countingCart : Network Int := fun history req =>
  if req.method = "GET" then
    .ok { status := 200, statusText := "OK", text := "[...]",
          json := .ok (.array [⟨"p1", "Widget", 10, "/p1.png",
            ((history.filter fun r => r.method = "POST").length : Int)
              - 2 * ((history.filter fun r => r.url = API_BASE_URL ++ "/cart/remove").length : Int)⟩]) }
  else .ok orderConfirmation

/-! ## Sequences of session operations -/

/-- A call of the API client that writes or clears the stored session,
together with the backend it meets. -/
inductive SessionOp (ν : Type) where
  | login (net : Network ν) (email password : String)
  | register (net : Network ν) (name email password : String)
  | clear

/-- The browser after a session operation, whether it succeeds or fails. -/
def applySessionOp {ν : Type} : SessionOp ν → Browser ν → Browser ν
  | .login net email password, b => (loginUser net email password b).2
  | .register net name email password, b => (registerUser net name email password b).2
  | .clear, b => clearAuthToken b

/-- Running a sequence of session operations, one after the other. -/
def runSessionOps {ν : Type} (ops : List (SessionOp ν)) (b : Browser ν) : Browser ν :=
  ops.foldl (fun b op => applySessionOp op b) b

/-- Whether key `k` is present in storage. -/
def Storage.has (s : Storage) (k : String) : Bool := (s.getItem k).isSome

/-- The three session keys are all present or all absent. -/
def AllOrNothing (s : Storage) : Prop :=
  (s.has "jwtToken" = true ∧ s.has "userId" = true ∧ s.has "username" = true) ∨
  (s.has "jwtToken" = false ∧ s.has "userId" = false ∧ s.has "username" = false)

/-! ## Error messages: the specification's wording and the observed rule -/

/-- The prefix every HTTP error message of the API client starts with. -/
def statusPrefix {ν : Type} (r : HttpResponse ν) : String :=
  "HTTP error! status: " ++ toString r.status ++ " - "

/-- The error message in the words of the specification: the status code,
then the message extracted from the response body when the body provides
one, and otherwise (plain text, or no body) the status line. -/
def specErrorMessage {ν : Type} (r : HttpResponse ν) : String :=
  statusPrefix r ++
    match r.json with
    | .ok (.object fields) =>
      match fields.lookup "message" with
      | some message => if message.truthy then message.toStr else r.statusText
      | none => r.statusText
    | _ => r.statusText

/-- The detail that `addToCart`, `fetchCartItems`, `removeCartItem`,
`registerUser`, `placeOrder` and `fetchOrderHistory` put after the status
code: the body's `message` when the body is JSON with a truthy `message`,
the status line when the body is JSON without one, and the fixed text
`Unknown error` when the body is not JSON. -/
def sharedErrorDetail {ν : Type} (r : HttpResponse ν) : String :=
  match r.json with
  | .error _ => "Unknown error"
  | .ok (.object fields) =>
    match fields.lookup "message" with
    | some message => if message.truthy then message.toStr else r.statusText
    | none => r.statusText
  | .ok _ => r.statusText

/-- The first truthy value of a list of candidates. -/
def firstTruthy : List (Option JsVal) → Option JsVal
  | [] => none
  | some v :: rest => if v.truthy then some v else firstTruthy rest
  | none :: rest => firstTruthy rest

/-- The detail that `loginUser` puts after the status code: of a JSON body
the truthy `message`, else the truthy `error`, else the fixed text
`Unknown Error`; the raw body text when the body is not JSON or is `null`. -/
def loginErrorDetail {ν : Type} (r : HttpResponse ν) : String :=
  match r.json with
  | .error _ => r.text
  | .ok .null => r.text
  | .ok (.array _) => "Unknown Error"
  | .ok (.object fields) =>
    match firstTruthy [fields.lookup "message", fields.lookup "error"] with
    | some v => v.toStr
    | none => "Unknown Error"

/-- The message of the error an operation throws (`none` when it returns). -/
def thrownMessage {α : Type} : Except JsError α → Option String
  | .error e => some e.message
  | .ok _ => none

/-- A `200 OK` answer of the login or register endpoint granting a session. -/
def sessionGranted : HttpResponse Int :=
  { status := 200, statusText := "OK",
    text := "\x7b\"jwtToken\":\"tok-1\",\"userId\":\"u1\",\"username\":\"ann@example.com\"\x7d",
    json := .ok (.object [("jwtToken", .str "tok-1"), ("userId", .str "u1"),
      ("username", .str "ann@example.com")]) }

/-- A `500` response with the plain-text body `upstream timed out`. -/
def plainTextFailure : HttpResponse Int :=
  { status := 500, statusText := "Internal Server Error", text := "upstream timed out",
    json := .error "Unexpected token u in JSON at position 0" }

/-- A `500` response with no body. -/
def emptyFailure : HttpResponse Int :=
  { status := 500, statusText := "Internal Server Error", text := "",
    json := .error "Unexpected end of JSON input" }

/-- A `409` response with the JSON body `\x7b"message":"Out of stock"\x7d`. -/
def jsonFailure : HttpResponse Int :=
  { status := 409, statusText := "Conflict", text := "\x7b\"message\":\"Out of stock\"\x7d",
    json := .ok (.object [("message", .str "Out of stock")]) }

/-! ## The alert banner and the controller's transitions -/

/-- The message box rendered under `Alerts and Messages`: red with the
`XCircle` icon for an error, green with the `Package` icon otherwise. -/
structure Alert where
  isError : Bool
  title : String
  text : String
  deriving DecidableEq, Repr

/-- The alert banner of `App`: what is rendered for the three message cells
(`none` when the box is not rendered). -/
def alertBanner {ν : Type} (app : AppState ν) : Option Alert :=
  if truthyItem app.fetchError || truthyItem app.checkoutError || app.showCheckoutMessage then
    some {
      isError := truthyItem app.fetchError || truthyItem app.checkoutError,
      title :=
        if truthyItem app.fetchError then "Error!"
        else if truthyItem app.checkoutError then "Checkout Error!"
        else "Order Placed!",
      text :=
        if truthyItem app.fetchError then app.fetchError.getD ""
        else if truthyItem app.checkoutError then app.checkoutError.getD ""
        else "Your order has been successfully placed. Thank you for shopping with us!" }
  else none

/-- The `onClick` handler of the banner's `Close message` button. -/
def dismissAlert {ν : Type} (app : AppState ν) : AppState ν :=
  { app with fetchError := none, checkoutError := none, showCheckoutMessage := false }

/-- The oldest pending `setTimeout` callback runs (nothing happens when none
is pending). -/
def fireTimer {ν : Type} (w : World ν) : World ν :=
  match w.browser.timers with
  | [] => w
  | t :: rest =>
    { app := runTimer t.action w.app, browser := { w.browser with timers := rest } }

/-- A transition of the controller. -/
inductive Action (ν : Type) where
  | login (email password : String)
  | register (name email password : String)
  | logout
  | cart (op : CartOp ν)
  | checkout
  | timer
  | dismiss
  deriving DecidableEq, Repr

/-- The handler of a transition. -/
def step {ν : Type} (net : Network ν) : Action ν → World ν → World ν
  | .login email password, w => handleLoginSuccess net email password w
  | .register name email password, w => handleRegisterSuccess net name email password w
  | .logout, w => handleLogout w
  | .cart op, w => applyCartOp net op w
  | .checkout, w => handleCheckout net w
  | .timer, w => fireTimer w
  | .dismiss, w => { w with app := dismissAlert w.app }

/-- The cart effect after the render that follows a handler, `prev` being
the value of `isLoggedIn` before the handler: the effect runs when
`isLoggedIn` changed, and once more when that run changed it again. -/
def afterRender {ν : Type} (net : Network ν) (prev : Bool) (w : World ν) : World ν :=
  cartEffect net w.app.isLoggedIn (cartEffect net prev w)

/-- A transition followed by the render and its effect. -/
def dispatch {ν : Type} (net : Network ν) (a : Action ν) (w : World ν) : World ν :=
  afterRender net w.app.isLoggedIn (step net a w)

/-- A sequence of transitions, one after the other. -/
def run {ν : Type} (net : Network ν) (actions : List (Action ν)) (w : World ν) : World ν :=
  actions.foldl (fun w a => dispatch net a w) w

/-- Whether one of the two error cells holds a message. -/
def errorSet {ν : Type} (app : AppState ν) : Bool :=
  truthyItem app.fetchError || truthyItem app.checkoutError

/-- The object `fetchUserDetails` resolves with. -/
structure UserDetails where
  id : Option String
  name : Option String
  email : Option String
  address : String
  phone : String
  deriving DecidableEq, Repr

/-- `fetchUserDetails` (a mock that reads storage; the 500 ms delay of its
promise is not modelled). -/
def fetchUserDetails {ν : Type} (b : Browser ν) : Except JsError UserDetails × Browser ν :=
  let token := getAuthToken b
  if !truthyItem token then (.error ⟨"No authentication token found."⟩, b)
  else
    (.ok { id := b.storage.getItem "userId", name := b.storage.getItem "username",
           email := b.storage.getItem "username", address := "123 Mock Address, Mock City",
           phone := "555-1234" }, b)

/-- A backend that grants a session at the login endpoint and otherwise
behaves as `countingCart` on the other requests. -/
def storeBackend : Network Int := fun history req =>
  if req.url = API_BASE_URL ++ "/auth/login" then .ok sessionGranted
  else countingCart (history.filter fun r => r.url != API_BASE_URL ++ "/auth/login") req

/-- The catalog product of the examples. -/
def widget : Product Int :=
  { id := "p1", name := "Widget", description := "", price := 10, imageUrl := "/p1.png" }

/-- The state reached from a fresh load by logging in, adding the widget
and checking out, before the notice timer fires. -/
def orderJustPlaced : World Int :=
  run storeBackend [.login "ann@example.com" "pw", .cart (.add widget), .checkout] visitor

/-! ## Application load and the login form's two calls -/

/-- The effect `useEffect(() => ..., [])` that checks the login status when
the application is loaded. -/
def startupEffect {ν : Type} (w : World ν) : World ν :=
  let token := w.browser.storage.getItem "jwtToken"
  let userId := w.browser.storage.getItem "userId"
  let username := w.browser.storage.getItem "username"
  if truthyItem token && truthyItem userId && truthyItem username then
    { w with app := { w.app with
        isLoggedIn := true,
        currentUser := some ⟨.str (userId.getD ""), .str (username.getD "")⟩ } }
  else w

/-- The application right after it is loaded in browser `b`: the initial
state cells, then the startup effect. -/
def loadApp {ν : Type} (b : Browser ν) : World ν :=
  startupEffect { app := AppState.initial, browser := b }

/-- The request `loginUser` sends. -/
def loginRequest {ν : Type} (email password : String) : Request ν :=
  ⟨"POST", API_BASE_URL ++ "/auth/login", [("Content-Type", "application/json")],
    .credentials email password⟩

/-- A second session, granted under another token. -/
def sessionRenewed : HttpResponse Int :=
  { status := 200, statusText := "OK",
    text := "\x7b\"jwtToken\":\"tok-2\",\"userId\":\"u1\",\"username\":\"ann@example.com\"\x7d",
    json := .ok (.object [("jwtToken", .str "tok-2"), ("userId", .str "u1"),
      ("username", .str "ann@example.com")]) }

/-- A backend that grants `sessionGranted` to the first request it receives
and `sessionRenewed` to every later one. -/
def renewingLogin : Network Int := fun history _ =>
  if history.length = 0 then .ok sessionGranted else .ok sessionRenewed

/-- A logged-in user with the example cart whose storage has been emptied. -/
def shopperWithoutToken : World Int :=
  { app := (shopper exampleCart).app, browser := Browser.fresh }

/-- Storage holding a session and a display preference. -/
def storageWithTheme : Storage := sessionStorage.setItem "theme" "dark"

/-! ## The requests of the API operations, and attempts to authenticate -/

/-- The request `fetchProducts` sends. -/
def productsRequest {ν : Type} : Request ν :=
  ⟨"GET", API_BASE_URL ++ "/products", [], .none⟩

/-- The request `addToCart` sends. -/
def addToCartRequest {ν : Type} (productId : String) (quantity : Int)
    (token : Option String) : Request ν :=
  ⟨"POST", API_BASE_URL ++ "/cart", getAuthHeaders token, .cartLine productId quantity⟩

/-- The request `fetchCartItems` sends. -/
def cartRequest {ν : Type} (token : Option String) : Request ν :=
  ⟨"GET", API_BASE_URL ++ "/cart", getAuthHeaders token, .none⟩

/-- The request `removeCartItem` sends. -/
def removeRequest {ν : Type} (productId : String) (quantity : Int)
    (token : Option String) : Request ν :=
  ⟨"POST", API_BASE_URL ++ "/cart/remove", getAuthHeaders token, .cartLine productId quantity⟩

/-- The request `registerUser` sends. -/
def registerRequest {ν : Type} (name email password : String) : Request ν :=
  ⟨"POST", API_BASE_URL ++ "/auth/register", [("Content-Type", "application/json")],
    .registration name email password⟩

/-- The request `placeOrder` sends when `token` is stored. -/
def orderRequest {ν : Type} (token : Option String) (cart : List (CartItem ν))
    (shipping : ShippingDetails) : Request ν :=
  ⟨"POST", API_BASE_URL ++ "/orders",
    [("Content-Type", "application/json"), ("Authorization", "Bearer " ++ tokenStr token)],
    .order (cart.map fun item => ⟨item.id, item.quantity⟩) shipping⟩

/-- The request `fetchOrderHistory` sends. -/
def historyRequest {ν : Type} (authToken : Option String) : Request ν :=
  ⟨"GET", API_BASE_URL ++ "/orders", [("Authorization", "Bearer " ++ tokenStr authToken)],
    .none⟩

/-- An attempt to authenticate: a login or a registration. -/
inductive AuthAttempt where
  | login (email password : String)
  | register (name email password : String)
  deriving DecidableEq, Repr

/-- The request of an attempt. -/
def AuthAttempt.request {ν : Type} : AuthAttempt → Request ν
  | .login email password => loginRequest email password
  | .register name email password => registerRequest name email password

/-- The API call of an attempt: `loginUser` or `registerUser`. -/
def AuthAttempt.call {ν : Type} (net : Network ν) :
    AuthAttempt → Browser ν → Except JsError (JsonBody ν) × Browser ν
  | .login email password, b => loginUser net email password b
  | .register name email password, b => registerUser net name email password b

/-- The controller's handler of an attempt: `handleLoginSuccess` or
`handleRegisterSuccess`. -/
def AuthAttempt.handle {ν : Type} (net : Network ν) : AuthAttempt → World ν → World ν
  | .login email password, w => handleLoginSuccess net email password w
  | .register name email password, w => handleRegisterSuccess net name email password w

/-- The fixed text the handler of an attempt shows for an error without
message. -/
def AuthAttempt.fallback : AuthAttempt → String
  | .login _ _ => "Login failed. Please check your credentials."
  | .register _ _ _ => "Registration failed. This email might already be registered."

/-- The error thrown by the request of a cart mutation (`none` when the
request succeeds). -/
def mutationError {ν : Type} (net : Network ν) (op : CartOp ν) (w : World ν) :
    Option JsError :=
  match op with
  | .add product =>
    match addToCart net product.id 1 (w.browser.storage.getItem "jwtToken") w.browser with
    | (.ok _, _) => none
    | (.error e, _) => some e
  | .decrement productId =>
    match removeCartItem net productId 1 (w.browser.storage.getItem "jwtToken") w.browser with
    | (.ok _, _) => none
    | (.error e, _) => some e
  | .remove productId =>
    match removeCartItem net productId (-1) (w.browser.storage.getItem "jwtToken") w.browser with
    | (.ok _, _) => none
    | (.error e, _) => some e

/-- The fixed text the handler of a cart mutation shows for an error without
message. -/
def mutationFallback {ν : Type} : CartOp ν → String
  | .add _ => "Failed to add product to cart. Please try again."
  | .decrement _ => "Failed to remove product. Please try again."
  | .remove _ => "Failed to remove all items. Please try again."

/-- A backend with one widget in stock: it grants a session at the login
endpoint, accepts the first `POST /cart` and refuses every later one with
`jsonFailure`, and otherwise behaves as `countingCart`. -/
def singleStockBackend : Network Int := fun history req =>
  if req.url = API_BASE_URL ++ "/auth/login" then .ok sessionGranted
  else if req.url = API_BASE_URL ++ "/cart" && req.method = "POST"
      && (history.any fun r => r.url = API_BASE_URL ++ "/cart" && r.method = "POST") then
    .ok jsonFailure
  else countingCart (history.filter fun r => r.url != API_BASE_URL ++ "/auth/login") req

/-- A backend that grants a session at the login and register endpoints and
answers every other request with `plainTextFailure`. -/
def cartDownBackend : Network Int := fun _ req =>
  if req.url = API_BASE_URL ++ "/auth/login" || req.url = API_BASE_URL ++ "/auth/register" then
    .ok sessionGranted
  else .ok plainTextFailure

/-- A backend that grants a session at the login and register endpoints and
answers every other request with `sessionExpired`. -/
def cartExpiredBackend : Network Int := fun _ req =>
  if req.url = API_BASE_URL ++ "/auth/login" || req.url = API_BASE_URL ++ "/auth/register" then
    .ok sessionGranted
  else .ok sessionExpired

/-- A backend that refuses the login and grants every registration. -/
def registerOnlyBackend : Network Int := fun _ req =>
  if req.url = API_BASE_URL ++ "/auth/register" then .ok sessionGranted
  else .ok invalidCredentials

/-- A user whose `isLoggedIn` is still true, whose storage has been emptied,
and whom the order history page has sent to the login page. -/
def staleShopperOnLogin : World Int :=
  { app := { (shopper exampleCart).app with currentPage := "login" }, browser := Browser.fresh }

/-! ## Effects of the API operations on the browser -/

theorem requestsOf_append {ν : Type} (xs ys : List (Event ν)) :
    requestsOf (xs ++ ys) = requestsOf xs ++ requestsOf ys := by
  induction xs with
  | nil => rfl
  | cons e es ih => cases e <;> simp [requestsOf, ih]

theorem callCount_append {ν : Type} (op : Op) (xs ys : List (Event ν)) :
    callCount op (xs ++ ys) = callCount op xs + callCount op ys := by
  induction xs with
  | nil => simp [callCount]
  | cons e es ih => cases e <;> simp [callCount, ih, Nat.add_assoc]

theorem placeOrder_timers {ν : Type} (net : Network ν) (cart : List (CartItem ν))
    (s : ShippingDetails) (b : Browser ν) : (placeOrder net cart s b).2.timers = b.timers := by
  unfold placeOrder
  simp only [Browser.call, Browser.send]
  split
  · rfl
  · split
    · rfl
    · split <;> rfl

/-! ## Logout, checkout and adding to the cart -/

/-- C1: for every controller state and storage content, `handleLogout` removes `jwtToken`,
`userId` and `username` from storage, sets `isLoggedIn` to false and `currentUser` to null,
empties the cart and selects the page `products`; being a total function it cannot fail. -/
theorem handleLogout_session_absent {ν : Type} (w : World ν) :
    (handleLogout w).browser.storage.getItem "jwtToken" = none ∧
    (handleLogout w).browser.storage.getItem "userId" = none ∧
    (handleLogout w).browser.storage.getItem "username" = none ∧
    (handleLogout w).app.isLoggedIn = false ∧
    (handleLogout w).app.currentUser = none ∧
    (handleLogout w).app.cartItems = [] ∧
    (handleLogout w).app.currentPage = "products" := by
  simp [handleLogout, clearAuthToken, Browser.call, Storage.getItem, Storage.removeItem]

/-- C2: when the user is not logged in or the cart is empty, `handleCheckout` records no call
of `placeOrder` and no request (the call record is unchanged), leaves `cartItems` unchanged
and sets a non-empty `checkoutError`. -/
theorem handleCheckout_precondition_failure {ν : Type} (net : Network ν) (w : World ν)
    (h : w.app.isLoggedIn = false ∨ w.app.cartItems = []) :
    (handleCheckout net w).browser.trace = w.browser.trace ∧
    (handleCheckout net w).app.cartItems = w.app.cartItems ∧
    ∃ msg, (handleCheckout net w).app.checkoutError = some msg ∧ msg ≠ "" := by
  unfold handleCheckout
  by_cases hl : w.app.isLoggedIn = true
  · have hc : w.app.cartItems = [] := by
      rcases h with h | h
      · rw [h] at hl; cases hl
      · exact h
    simp [hl, hc]
  · simp [hl]


/-- C2 at a concrete input: a logged-in user with an empty cart. -/
theorem handleCheckout_precondition_failure_witness :
    ((⟨{ AppState.initial with isLoggedIn := true }, Browser.fresh⟩ : World Int).app.isLoggedIn = false ∨
      (⟨{ AppState.initial with isLoggedIn := true }, Browser.fresh⟩ : World Int).app.cartItems = []) ∧
    (handleCheckout (fun _ _ => .error "unreachable")
      (⟨{ AppState.initial with isLoggedIn := true }, Browser.fresh⟩ : World Int)).browser.trace = [] :=
  ⟨Or.inr rfl,
    (handleCheckout_precondition_failure (fun _ _ => .error "unreachable")
      (⟨{ AppState.initial with isLoggedIn := true }, Browser.fresh⟩ : World Int) (Or.inr rfl)).1⟩
theorem fetchCartItems_browser {ν : Type} (net : Network ν) (token : Option String)
    (b : Browser ν) :
    (fetchCartItems net token b).2 =
      (b.call Op.fetchCartItems).send
        ⟨"GET", API_BASE_URL ++ "/cart", getAuthHeaders token, .none⟩ := by
  unfold fetchCartItems
  simp only
  split
  · rfl
  · split <;> rfl

/-- C3: in a logged-in state with a non-empty cart, when `placeOrder` succeeds `handleCheckout`
sets the cart to `[]`, shows the success notice with no error set (`checkoutError` is the empty
string, `fetchError` is null), and registers one timer of 3000 ms whose callback hides the
notice again and leaves the cart empty. -/
theorem handleCheckout_success {ν : Type} (net : Network ν) (w : World ν) (data : JsonBody ν)
    (b : Browser ν) (hlog : w.app.isLoggedIn = true) (hcart : w.app.cartItems ≠ [])
    (hok : placeOrder net w.app.cartItems shippingDetails w.browser = (.ok data, b)) :
    (handleCheckout net w).app.cartItems = [] ∧
    (handleCheckout net w).app.showCheckoutMessage = true ∧
    (handleCheckout net w).app.checkoutError = some "" ∧
    (handleCheckout net w).app.fetchError = none ∧
    (handleCheckout net w).browser.timers =
      w.browser.timers ++ [⟨3000, TimerAction.hideCheckoutMessage⟩] ∧
    (runTimer TimerAction.hideCheckoutMessage (handleCheckout net w).app).showCheckoutMessage
      = false ∧
    (runTimer TimerAction.hideCheckoutMessage (handleCheckout net w).app).cartItems = [] := by
  have ht : b.timers = w.browser.timers := by
    have := placeOrder_timers net w.app.cartItems shippingDetails w.browser
    rw [hok] at this
    exact this
  have hlen : ¬ w.app.cartItems.length = 0 := by
    intro h
    exact hcart (List.length_eq_zero.mp h)
  simp [handleCheckout, hlog, hlen, hok, ht, runTimer]

/-- C3 at the example of the specification: the cart holds two units of `p1` at 10.00 and
the order endpoint answers `200 OK`. -/
theorem handleCheckout_success_witness :
    (handleCheckout (respond orderConfirmation) (shopper exampleCart)).app.cartItems = [] ∧
    (handleCheckout (respond orderConfirmation) (shopper exampleCart)).app.showCheckoutMessage
      = true ∧
    (handleCheckout (respond orderConfirmation) (shopper exampleCart)).app.checkoutError
      = some "" ∧
    (handleCheckout (respond orderConfirmation) (shopper exampleCart)).app.fetchError = none ∧
    (handleCheckout (respond orderConfirmation) (shopper exampleCart)).browser.timers =
      (shopper exampleCart).browser.timers ++ [⟨3000, TimerAction.hideCheckoutMessage⟩] ∧
    (runTimer TimerAction.hideCheckoutMessage
      (handleCheckout (respond orderConfirmation) (shopper exampleCart)).app).showCheckoutMessage
      = false ∧
    (runTimer TimerAction.hideCheckoutMessage
      (handleCheckout (respond orderConfirmation) (shopper exampleCart)).app).cartItems = [] :=
  handleCheckout_success (respond orderConfirmation) (shopper exampleCart)
    (.object [("orderId", .num "1" true)])
    (placeOrder (respond orderConfirmation) exampleCart shippingDetails
      (shopper exampleCart).browser).2
    rfl (by decide) rfl

/-- C5: with `isLoggedIn` false, `handleAddToCart` makes no call into the API client and sends
no request (the call record is unchanged), sets `fetchError` to the log-in message, and leaves
storage, timers, cart, page, session and the cart-panel flag as they were. -/
theorem handleAddToCart_logged_out {ν : Type} (net : Network ν) (product : Product ν)
    (w : World ν) (h : w.app.isLoggedIn = false) :
    (handleAddToCart net product w).browser = w.browser ∧
    callCount Op.addToCart (handleAddToCart net product w).browser.trace
      = callCount Op.addToCart w.browser.trace ∧
    callCount Op.fetchCartItems (handleAddToCart net product w).browser.trace
      = callCount Op.fetchCartItems w.browser.trace ∧
    (handleAddToCart net product w).app.fetchError
      = some "Please log in to add items to your cart." ∧
    (handleAddToCart net product w).app.cartItems = w.app.cartItems ∧
    (handleAddToCart net product w).app.currentPage = w.app.currentPage ∧
    (handleAddToCart net product w).app.isLoggedIn = w.app.isLoggedIn ∧
    (handleAddToCart net product w).app.currentUser = w.app.currentUser ∧
    (handleAddToCart net product w).app.isCartOpen = w.app.isCartOpen ∧
    (handleAddToCart net product w).app.showCheckoutMessage = w.app.showCheckoutMessage ∧
    (handleAddToCart net product w).app.checkoutError = w.app.checkoutError := by
  simp [handleAddToCart, h]

/-- C5 at a concrete input: a visitor adds product `p1`. -/
theorem handleAddToCart_logged_out_witness :
    visitor.app.isLoggedIn = false ∧
    (handleAddToCart (respond orderConfirmation) ⟨"p1", "Widget", "", 10, "/p1.png"⟩
      visitor).app.fetchError = some "Please log in to add items to your cart." :=
  ⟨rfl, (handleAddToCart_logged_out (respond orderConfirmation)
    ⟨"p1", "Widget", "", 10, "/p1.png"⟩ visitor rfl).2.2.2.1⟩

/-- C6: in a logged-in state with a stored token, when `fetchCartItems` fails inside
`updateCartFromBackend` with an error whose message contains `Session expired`, the logout
runs exactly once (one more call of `clearAuthToken` is recorded, and the effect that follows
the change of `isLoggedIn` changes nothing further); afterwards the three storage keys are
removed, `isLoggedIn` is false, `currentUser` is null and the cart is empty. -/
theorem updateCartFromBackend_session_expired {ν : Type} (net : Network ν) (w : World ν)
    (error : JsError) (b : Browser ν) (hlog : w.app.isLoggedIn = true)
    (htok : truthyItem (w.browser.storage.getItem "jwtToken") = true)
    (hfail : fetchCartItems net (w.browser.storage.getItem "jwtToken") w.browser
      = (.error error, b))
    (hexp : includes error.message "Session expired" = true) :
    callCount Op.clearAuthToken (updateCartFromBackend net w.app.isLoggedIn w).browser.trace
      = callCount Op.clearAuthToken w.browser.trace + 1 ∧
    (updateCartFromBackend net w.app.isLoggedIn w).browser.storage.getItem "jwtToken" = none ∧
    (updateCartFromBackend net w.app.isLoggedIn w).browser.storage.getItem "userId" = none ∧
    (updateCartFromBackend net w.app.isLoggedIn w).browser.storage.getItem "username" = none ∧
    (updateCartFromBackend net w.app.isLoggedIn w).app.isLoggedIn = false ∧
    (updateCartFromBackend net w.app.isLoggedIn w).app.currentUser = none ∧
    (updateCartFromBackend net w.app.isLoggedIn w).app.cartItems = [] ∧
    cartEffect net w.app.isLoggedIn (updateCartFromBackend net w.app.isLoggedIn w)
      = updateCartFromBackend net w.app.isLoggedIn w := by
  have hb : b = (w.browser.call Op.fetchCartItems).send
      ⟨"GET", API_BASE_URL ++ "/cart",
        getAuthHeaders (w.browser.storage.getItem "jwtToken"), .none⟩ := by
    have := fetchCartItems_browser net (w.browser.storage.getItem "jwtToken") w.browser
    rw [hfail] at this
    exact this
  have hu : updateCartFromBackend net w.app.isLoggedIn w = updateCartCatch error ⟨w.app, b⟩ := by
    simp [updateCartFromBackend, hlog, htok, hfail]
  rw [hu, hb]
  simp [updateCartCatch, hexp, handleLogout, clearAuthToken, Browser.call, Browser.send,
    callCount_append, callCount, Storage.getItem, Storage.removeItem, cartEffect, hlog,
    updateCartFromBackend]

/-- C6 at a concrete input: the cart endpoint answers 401 `Session expired`. -/
theorem updateCartFromBackend_session_expired_witness :
    callCount Op.clearAuthToken
      (updateCartFromBackend (respond sessionExpired) true (shopper exampleCart)).browser.trace
      = 1 ∧
    (updateCartFromBackend (respond sessionExpired) true (shopper exampleCart)).app.isLoggedIn
      = false :=
  ⟨(updateCartFromBackend_session_expired (respond sessionExpired) (shopper exampleCart)
      ⟨"HTTP error! status: 401 - Session expired"⟩
      (fetchCartItems (respond sessionExpired) (some "tok-1") (shopper exampleCart).browser).2
      rfl rfl rfl (by decide)).1,
   (updateCartFromBackend_session_expired (respond sessionExpired) (shopper exampleCart)
      ⟨"HTTP error! status: 401 - Session expired"⟩
      (fetchCartItems (respond sessionExpired) (some "tok-1") (shopper exampleCart).browser).2
      rfl rfl rfl (by decide)).2.2.2.2.1⟩

/-! ## A rejected login -/

theorem loginUser_failure {ν : Type} (net : Network ν) (email password : String)
    (b : Browser ν) (r : HttpResponse ν)
    (hnet : net (requestsOf b.trace) ⟨"POST", API_BASE_URL ++ "/auth/login",
      [("Content-Type", "application/json")], .credentials email password⟩ = .ok r)
    (hr : r.ok = false) :
    loginUser net email password b =
      (.error ⟨loginErrorMessage r⟩, (b.call Op.loginUser).send ⟨"POST",
        API_BASE_URL ++ "/auth/login", [("Content-Type", "application/json")],
        .credentials email password⟩) := by
  simp [loginUser, fetch, Browser.call, Browser.send, requestsOf_append, requestsOf, hnet, hr]

/-- C4 (as amended): when the login endpoint answers HTTP 401 with a JSON body whose `message`
is `Invalid credentials`, the error shown is `HTTP error! status: 401 - Invalid credentials`:
`handleLoginSuccess` stores it in `fetchError`, `Login.handleSubmit` stores it in the form's
own `error` and leaves the controller state untouched; in both cases storage, `isLoggedIn`
and `currentUser` are unchanged, so an absent session stays absent. -/
theorem login_401_invalid_credentials {ν : Type} (net : Network ν) (form : LoginForm)
    (w : World ν) (r : HttpResponse ν) (fields : List (String × JsVal))
    (hnet : net (requestsOf w.browser.trace) ⟨"POST", API_BASE_URL ++ "/auth/login",
      [("Content-Type", "application/json")], .credentials form.email form.password⟩ = .ok r)
    (hstatus : r.status = 401) (hjson : r.json = .ok (.object fields))
    (hmsg : fields.lookup "message" = some (.str "Invalid credentials")) :
    (handleLoginSuccess net form.email form.password w).app.fetchError
      = some "HTTP error! status: 401 - Invalid credentials" ∧
    (handleLoginSuccess net form.email form.password w).browser.storage = w.browser.storage ∧
    (handleLoginSuccess net form.email form.password w).app.isLoggedIn = w.app.isLoggedIn ∧
    (handleLoginSuccess net form.email form.password w).app.currentUser = w.app.currentUser ∧
    (Login.handleSubmit net form w).1.error
      = "HTTP error! status: 401 - Invalid credentials" ∧
    (Login.handleSubmit net form w).2.app = w.app ∧
    (Login.handleSubmit net form w).2.browser.storage = w.browser.storage := by
  have hr : r.ok = false := by simp [HttpResponse.ok, hstatus]
  have hm : loginErrorMessage r = "HTTP error! status: 401 - Invalid credentials" := by
    simp [loginErrorMessage, hstatus, hjson, JsonBody.prop, hmsg, JsVal.or, JsVal.truthy,
      JsVal.toStr]
    rfl
  have hl := loginUser_failure net form.email form.password w.browser r hnet hr
  simp [handleLoginSuccess, Login.handleSubmit, hl, hm, orElse, Browser.call, Browser.send]

/-- C4 (as amended) at the example of the specification. -/
theorem login_401_invalid_credentials_witness :
    (handleLoginSuccess (respond invalidCredentials) "ann@example.com" "wrong"
      visitor).app.fetchError = some "HTTP error! status: 401 - Invalid credentials" ∧
    (Login.handleSubmit (respond invalidCredentials) ⟨"ann@example.com", "wrong", "", false⟩
      visitor).1.error = "HTTP error! status: 401 - Invalid credentials" :=
  ⟨(login_401_invalid_credentials (respond invalidCredentials)
      ⟨"ann@example.com", "wrong", "", false⟩ visitor invalidCredentials
      [("message", .str "Invalid credentials")] rfl rfl rfl rfl).1,
   (login_401_invalid_credentials (respond invalidCredentials)
      ⟨"ann@example.com", "wrong", "", false⟩ visitor invalidCredentials
      [("message", .str "Invalid credentials")] rfl rfl rfl rfl).2.2.2.2.1⟩

/-- C4 as stated fails: on a 401 answer with body message `Invalid credentials` the
controller's error is not the text `Invalid credentials`, neither when `handleLoginSuccess`
receives the answer nor when the form's `handleSubmit` does. -/
theorem login_401_error_not_bare_message :
    (handleLoginSuccess (respond invalidCredentials) "ann@example.com" "wrong"
      visitor).app.fetchError ≠ some "Invalid credentials" ∧
    (Login.handleSubmit (respond invalidCredentials) ⟨"ann@example.com", "wrong", "", false⟩
      visitor).2.app.fetchError ≠ some "Invalid credentials" := by
  decide

/-! ## The cart is the last answer of the server -/

theorem refetch_after_mutation {ν : Type} (net : Network ν) (w : World ν) (b : Browser ν)
    (app : AppState ν) (lines : List (ServerCartLine ν))
    (hguard : (w.app.isLoggedIn && truthyItem (w.browser.storage.getItem "jwtToken")) = true)
    (hs : b.storage = w.browser.storage)
    (h : (match fetchCartItems net (w.browser.storage.getItem "jwtToken") b with
      | (.ok (.array lines), _) => some lines
      | _ => none) = some lines) :
    (updateCartFromBackend net w.app.isLoggedIn ⟨app, b⟩).app.cartItems
      = lines.map formatCartItem := by
  rcases hf : fetchCartItems net (w.browser.storage.getItem "jwtToken") b with ⟨res, b2⟩
  rw [hf] at h
  cases res with
  | error e => simp at h
  | ok data =>
    cases data with
    | null => simp at h
    | object fields => simp at h
    | array items =>
      simp only [Option.some.injEq] at h
      subst h
      simp [updateCartFromBackend, hs, hguard, hf, formatCartItems]

theorem addToCart_storage {ν : Type} (net : Network ν) (productId : String) (quantity : Int)
    (token : Option String) (b : Browser ν) :
    (addToCart net productId quantity token b).2.storage = b.storage := by
  unfold addToCart
  simp only
  split
  · rfl
  · split <;> rfl

theorem removeCartItem_storage {ν : Type} (net : Network ν) (productId : String)
    (quantity : Int) (token : Option String) (b : Browser ν) :
    (removeCartItem net productId quantity token b).2.storage = b.storage := by
  unfold removeCartItem
  simp only
  split
  · rfl
  · split <;> rfl

theorem cartOpSnapshot_applied {ν : Type} (net : Network ν) (op : CartOp ν) (w : World ν)
    (lines : List (ServerCartLine ν)) (h : cartOpSnapshot net op w = some lines) :
    (applyCartOp net op w).app.cartItems = lines.map formatCartItem := by
  unfold cartOpSnapshot at h
  split at h
  · rename_i hguard
    have hlog : w.app.isLoggedIn = true := by
      simp only [Bool.and_eq_true] at hguard
      exact hguard.1
    cases op with
    | add product =>
      have hst := addToCart_storage net product.id 1 (w.browser.storage.getItem "jwtToken")
        w.browser
      rcases hm : addToCart net product.id 1 (w.browser.storage.getItem "jwtToken") w.browser
        with ⟨res, b⟩
      rw [hm] at hst
      cases res with
      | error e => simp [mutationSucceeds, hm] at h
      | ok data =>
        simp only [mutationSucceeds, hm] at h
        simp only [applyCartOp, handleAddToCart, hlog, hm, Bool.not_true, Bool.false_eq_true,
          if_false]
        rw [← hlog]
        exact refetch_after_mutation net w b _ lines hguard hst h
    | decrement productId =>
      have hst := removeCartItem_storage net productId 1 (w.browser.storage.getItem "jwtToken")
        w.browser
      rcases hm : removeCartItem net productId 1 (w.browser.storage.getItem "jwtToken") w.browser
        with ⟨res, b⟩
      rw [hm] at hst
      cases res with
      | error e => simp [mutationSucceeds, hm] at h
      | ok data =>
        simp only [mutationSucceeds, hm] at h
        simp only [applyCartOp, handleRemoveFromCart, hlog, hm, Bool.not_true,
          Bool.false_eq_true, if_false]
        rw [← hlog]
        exact refetch_after_mutation net w b _ lines hguard hst h
    | remove productId =>
      have hst := removeCartItem_storage net productId (-1)
        (w.browser.storage.getItem "jwtToken") w.browser
      rcases hm : removeCartItem net productId (-1) (w.browser.storage.getItem "jwtToken")
        w.browser with ⟨res, b⟩
      rw [hm] at hst
      cases res with
      | error e => simp [mutationSucceeds, hm] at h
      | ok data =>
        simp only [mutationSucceeds, hm] at h
        simp only [applyCartOp, handleRemoveAllOfItem, hlog, hm, Bool.not_true,
          Bool.false_eq_true, if_false]
        rw [← hlog]
        exact refetch_after_mutation net w b _ lines hguard hst h
  · cases h

theorem calculateTotalPrice_eq_sum {ν : Type} [JsNumber ν] (app : AppState ν) :
    calculateTotalPrice app =
      JsNumber.toFixed2 (sumOf (app.cartItems.map fun item =>
        JsNumber.mul item.price item.quantity)) := by
  simp [calculateTotalPrice, sumOf, List.foldl_map]

theorem confirmedSnapshot_applied {ν : Type} (net : Network ν) (ops : List (CartOp ν)) :
    ∀ (w : World ν) (lines : List (ServerCartLine ν)), confirmedSnapshot net ops w = some lines →
      (applyCartOps net ops w).app.cartItems = lines.map formatCartItem := by
  induction ops with
  | nil => intro w lines h; cases h
  | cons op rest ih =>
    intro w lines h
    cases rest with
    | nil => exact cartOpSnapshot_applied net op w lines h
    | cons next ops =>
      simp only [confirmedSnapshot] at h
      split at h
      · cases h
      · exact ih (applyCartOp net op w) lines h

/-- C7: for every cart state `calculateTotalPrice` is the two-decimal rendering of the sum of
`price × quantity` over `cartItems`; and after a sequence of cart operations (add, decrement,
remove) that all succeed, `cartItems` is exactly the last cart returned by the server (mapped
field by field), so the displayed total is the sum of `price × quantity` over that snapshot. -/
theorem total_is_sum_over_last_snapshot {ν : Type} [JsNumber ν] (net : Network ν)
    (ops : List (CartOp ν)) (w : World ν) (lines : List (ServerCartLine ν))
    (h : confirmedSnapshot net ops w = some lines) :
    (∀ app : AppState ν, calculateTotalPrice app =
      JsNumber.toFixed2 (sumOf (app.cartItems.map fun item =>
        JsNumber.mul item.price item.quantity))) ∧
    (applyCartOps net ops w).app.cartItems = lines.map formatCartItem ∧
    calculateTotalPrice (applyCartOps net ops w).app = snapshotTotal lines := by
  refine ⟨calculateTotalPrice_eq_sum, confirmedSnapshot_applied net ops w lines h, ?_⟩
  rw [calculateTotalPrice_eq_sum, confirmedSnapshot_applied net ops w lines h]
  simp [snapshotTotal, List.map_map, Function.comp_def, formatCartItem]

/-- C7 at a concrete run: two additions and one decrement of `p1` against a backend that
counts them; the displayed total is that of the last returned cart, one unit at 10.00. -/
theorem total_is_sum_over_last_snapshot_witness :
    confirmedSnapshot countingCart
      [.add ⟨"p1", "Widget", "", 10, "/p1.png"⟩, .add ⟨"p1", "Widget", "", 10, "/p1.png"⟩,
        .decrement "p1"] (shopper []) = some [⟨"p1", "Widget", 10, "/p1.png", 1⟩] ∧
    @calculateTotalPrice Int wholeNumbers (applyCartOps countingCart
      [.add ⟨"p1", "Widget", "", 10, "/p1.png"⟩, .add ⟨"p1", "Widget", "", 10, "/p1.png"⟩,
        .decrement "p1"] (shopper [])).app
      = @snapshotTotal Int wholeNumbers [⟨"p1", "Widget", 10, "/p1.png", 1⟩] ∧
    @snapshotTotal Int wholeNumbers [⟨"p1", "Widget", 10, "/p1.png", 1⟩] = "10.00" :=
  ⟨rfl,
   (@total_is_sum_over_last_snapshot Int wholeNumbers countingCart
      [.add ⟨"p1", "Widget", "", 10, "/p1.png"⟩, .add ⟨"p1", "Widget", "", 10, "/p1.png"⟩,
        .decrement "p1"] (shopper []) [⟨"p1", "Widget", 10, "/p1.png", 1⟩] rfl).2.2,
   rfl⟩


/-! ## The session keys are written and removed together -/

theorem persistSession_allOrNothing {ν : Type} (data : JsonBody ν) (b : Browser ν)
    (h : AllOrNothing b.storage) : AllOrNothing (persistSession data b).2.storage := by
  cases data with
  | null => simpa [persistSession, JsonBody.prop] using h
  | object fields =>
    left
    simp [persistSession, JsonBody.prop, setAuthToken, Storage.has, Storage.getItem,
      Storage.setItem]
  | array items =>
    left
    simp [persistSession, JsonBody.prop, setAuthToken, Storage.has, Storage.getItem,
      Storage.setItem]

theorem loginUser_allOrNothing {ν : Type} (net : Network ν) (email password : String)
    (b : Browser ν) (h : AllOrNothing b.storage) :
    AllOrNothing (loginUser net email password b).2.storage := by
  unfold loginUser
  simp only
  split
  · exact h
  · split
    · exact h
    · split
      · exact h
      · exact persistSession_allOrNothing _ _ h

theorem registerUser_allOrNothing {ν : Type} (net : Network ν) (name email password : String)
    (b : Browser ν) (h : AllOrNothing b.storage) :
    AllOrNothing (registerUser net name email password b).2.storage := by
  unfold registerUser
  simp only
  split
  · exact h
  · split
    · exact h
    · split
      · exact h
      · exact persistSession_allOrNothing _ _ h

theorem clearAuthToken_allOrNothing {ν : Type} (b : Browser ν) :
    AllOrNothing (clearAuthToken b).storage := by
  right
  simp [clearAuthToken, Browser.call, Storage.has, Storage.getItem, Storage.removeItem]

theorem runSessionOps_allOrNothing {ν : Type} (ops : List (SessionOp ν)) :
    ∀ b : Browser ν, AllOrNothing b.storage → AllOrNothing (runSessionOps ops b).storage := by
  induction ops with
  | nil => intro b h; exact h
  | cons op rest ih =>
    intro b h
    apply ih
    cases op with
    | login net email password => exact loginUser_allOrNothing net email password b h
    | register net name email password =>
      exact registerUser_allOrNothing net name email password b h
    | clear => exact clearAuthToken_allOrNothing b

/-- C8: in every storage state reached from empty storage by a sequence of `loginUser`,
`registerUser` (against any backend, succeeding or failing) and `clearAuthToken`, the key
`jwtToken` is present if and only if both `userId` and `username` are present. -/
theorem token_present_iff_identity_present {ν : Type} (ops : List (SessionOp ν)) :
    (runSessionOps ops (Browser.fresh : Browser ν)).storage.has "jwtToken" = true ↔
      ((runSessionOps ops (Browser.fresh : Browser ν)).storage.has "userId" = true ∧
       (runSessionOps ops (Browser.fresh : Browser ν)).storage.has "username" = true) := by
  have h := runSessionOps_allOrNothing ops (Browser.fresh : Browser ν)
    (Or.inr ⟨rfl, rfl, rfl⟩)
  rcases h with ⟨h1, h2, h3⟩ | ⟨h1, h2, h3⟩
  · simp [h1, h2, h3]
  · simp [h1, h2, h3]


/-- A successful login from empty storage writes the three session keys, and a later
`clearAuthToken` removes them again. -/
theorem session_written_then_cleared :
    (runSessionOps [.login (respond sessionGranted) "ann@example.com" "pw"]
      (Browser.fresh : Browser Int)).storage.getItem "jwtToken" = some "tok-1" ∧
    (runSessionOps [.login (respond sessionGranted) "ann@example.com" "pw"]
      (Browser.fresh : Browser Int)).storage.getItem "userId" = some "u1" ∧
    (runSessionOps [.login (respond sessionGranted) "ann@example.com" "pw"]
      (Browser.fresh : Browser Int)).storage.getItem "username" = some "ann@example.com" ∧
    (runSessionOps [.login (respond sessionGranted) "ann@example.com" "pw", .clear]
      (Browser.fresh : Browser Int)).storage.has "jwtToken" = false := by
  decide

/-! ## Error messages of the API client -/

theorem errorDataError_eq {ν : Type} (r : HttpResponse ν) (hnull : r.json ≠ .ok .null) :
    errorDataError r = ⟨statusPrefix r ++ sharedErrorDetail r⟩ := by
  unfold errorDataError jsonOrUnknown sharedErrorDetail statusPrefix
  rcases hj : r.json with m | body
  · simp [JsonBody.prop, List.lookup, JsVal.or, JsVal.truthy, JsVal.toStr]
  · cases body with
    | null => exact absurd hj hnull
    | array items => simp [JsonBody.prop, JsVal.or, JsVal.truthy, JsVal.toStr]
    | object fields =>
      rcases hl : fields.lookup "message" with _ | message
      · simp [JsonBody.prop, hl, JsVal.or, JsVal.truthy, JsVal.toStr]
      · by_cases ht : message.truthy = true
        · simp [JsonBody.prop, hl, JsVal.or, ht]
        · simp [JsonBody.prop, hl, JsVal.or, ht, JsVal.toStr]

theorem loginErrorMessage_eq {ν : Type} (r : HttpResponse ν) :
    loginErrorMessage r = statusPrefix r ++ loginErrorDetail r := by
  have hu : JsVal.undefined.truthy = false := rfl
  unfold loginErrorMessage loginErrorDetail statusPrefix
  rcases hj : r.json with m | body
  · rfl
  · cases body with
    | null => rfl
    | array items => simp [JsonBody.prop, JsVal.or, hu, JsVal.toStr]
    | object fields =>
      rcases hm : fields.lookup "message" with _ | message <;>
        rcases he : fields.lookup "error" with _ | error
      · simp [JsonBody.prop, hm, he, JsVal.or, hu, JsVal.toStr, firstTruthy]
      · by_cases ht : error.truthy = true
        · simp [JsonBody.prop, hm, he, JsVal.or, hu, firstTruthy, ht]
        · simp [JsonBody.prop, hm, he, JsVal.or, hu, JsVal.toStr, firstTruthy, ht]
      · by_cases ht : message.truthy = true
        · simp [JsonBody.prop, hm, he, JsVal.or, hu, firstTruthy, ht]
        · simp [JsonBody.prop, hm, he, JsVal.or, hu, JsVal.toStr, firstTruthy, ht]
      · by_cases ht : message.truthy = true
        · simp [JsonBody.prop, hm, he, JsVal.or, hu, firstTruthy, ht]
        · by_cases ht2 : error.truthy = true
          · simp [JsonBody.prop, hm, he, JsVal.or, hu, firstTruthy, ht, ht2]
          · simp [JsonBody.prop, hm, he, JsVal.or, hu, JsVal.toStr, firstTruthy, ht, ht2]

theorem fetchProducts_refused {ν : Type} (net : Network ν) (b : Browser ν)
    (r : HttpResponse ν) (hnet : net (requestsOf b.trace) productsRequest = .ok r)
    (hr : r.ok = false) :
    (fetchProducts net b).1 = .error ⟨statusPrefix r ++ r.statusText⟩ := by
  unfold productsRequest at hnet
  simp [fetchProducts, fetch, Browser.call, requestsOf_append, requestsOf, hnet, hr,
    statusPrefix]

theorem loginUser_refused {ν : Type} (net : Network ν) (email password : String)
    (b : Browser ν) (r : HttpResponse ν)
    (hnet : net (requestsOf b.trace) (loginRequest email password) = .ok r)
    (hr : r.ok = false) :
    (loginUser net email password b).1 = .error ⟨statusPrefix r ++ loginErrorDetail r⟩ := by
  unfold loginRequest at hnet
  simp [loginUser, fetch, Browser.call, requestsOf_append, requestsOf, hnet, hr,
    loginErrorMessage_eq]

theorem addToCart_refused {ν : Type} (net : Network ν) (productId : String) (quantity : Int)
    (token : Option String) (b : Browser ν) (r : HttpResponse ν)
    (hnet : net (requestsOf b.trace) (addToCartRequest productId quantity token) = .ok r)
    (hr : r.ok = false) :
    (addToCart net productId quantity token b).1 = .error (errorDataError r) := by
  unfold addToCartRequest at hnet
  simp [addToCart, fetch, Browser.call, requestsOf_append, requestsOf, hnet, hr]

theorem fetchCartItems_refused {ν : Type} (net : Network ν) (token : Option String)
    (b : Browser ν) (r : HttpResponse ν)
    (hnet : net (requestsOf b.trace) (cartRequest token) = .ok r) (hr : r.ok = false) :
    (fetchCartItems net token b).1 = .error (errorDataError r) := by
  unfold cartRequest at hnet
  simp [fetchCartItems, fetch, Browser.call, requestsOf_append, requestsOf, hnet, hr]

theorem removeCartItem_refused {ν : Type} (net : Network ν) (productId : String)
    (quantity : Int) (token : Option String) (b : Browser ν) (r : HttpResponse ν)
    (hnet : net (requestsOf b.trace) (removeRequest productId quantity token) = .ok r)
    (hr : r.ok = false) :
    (removeCartItem net productId quantity token b).1 = .error (errorDataError r) := by
  unfold removeRequest at hnet
  simp [removeCartItem, fetch, Browser.call, requestsOf_append, requestsOf, hnet, hr]

theorem registerUser_refused {ν : Type} (net : Network ν) (name email password : String)
    (b : Browser ν) (r : HttpResponse ν)
    (hnet : net (requestsOf b.trace) (registerRequest name email password) = .ok r)
    (hr : r.ok = false) :
    (registerUser net name email password b).1 = .error (errorDataError r) := by
  unfold registerRequest at hnet
  simp [registerUser, fetch, Browser.call, requestsOf_append, requestsOf, hnet, hr]

theorem placeOrder_refused {ν : Type} (net : Network ν) (cart : List (CartItem ν))
    (shipping : ShippingDetails) (b : Browser ν) (r : HttpResponse ν)
    (htok : truthyItem (b.storage.getItem "jwtToken") = true)
    (hnet : net (requestsOf b.trace)
      (orderRequest (b.storage.getItem "jwtToken") cart shipping) = .ok r)
    (hr : r.ok = false) :
    (placeOrder net cart shipping b).1 = .error (errorDataError r) := by
  unfold orderRequest at hnet
  simp [placeOrder, getAuthToken, fetch, Browser.call, requestsOf_append, requestsOf, htok,
    hnet, hr]

theorem fetchOrderHistory_refused {ν : Type} (net : Network ν) (token : Option String)
    (b : Browser ν) (r : HttpResponse ν)
    (hnet : net (requestsOf b.trace) (historyRequest token) = .ok r) (hr : r.ok = false) :
    (fetchOrderHistory net token b).1 = .error (errorDataError r) := by
  unfold historyRequest at hnet
  simp [fetchOrderHistory, fetch, Browser.call, requestsOf_append, requestsOf, hnet, hr]

/-- C9 (as amended): for every non-ok HTTP response, whatever the backend and the browser
state in which an operation receives it, the operation throws an error whose message is the
status code followed by a detail. For `fetchProducts` the detail is always the status line;
for `loginUser` it is the truthy `message`, else the truthy `error`, else `Unknown Error` of a
JSON body, and the raw body text for a body that is not JSON. For `addToCart`,
`fetchCartItems`, `removeCartItem`, `registerUser`, `placeOrder` (reached only with a stored
token) and `fetchOrderHistory`, and a body other than the JSON value `null`, the detail is the
string form of the body's truthy `message`, the status line for a JSON body without one, and
`Unknown error` for a body that is not JSON. -/
theorem error_message_per_operation {ν : Type} (r : HttpResponse ν) (hr : r.ok = false) :
    (∀ (net : Network ν) (b : Browser ν),
      net (requestsOf b.trace) productsRequest = .ok r →
      (fetchProducts net b).1 = .error ⟨statusPrefix r ++ r.statusText⟩) ∧
    (∀ (net : Network ν) (email password : String) (b : Browser ν),
      net (requestsOf b.trace) (loginRequest email password) = .ok r →
      (loginUser net email password b).1 = .error ⟨statusPrefix r ++ loginErrorDetail r⟩) ∧
    (r.json ≠ .ok .null →
      (∀ (net : Network ν) (productId : String) (quantity : Int) (token : Option String)
          (b : Browser ν),
        net (requestsOf b.trace) (addToCartRequest productId quantity token) = .ok r →
        (addToCart net productId quantity token b).1
          = .error ⟨statusPrefix r ++ sharedErrorDetail r⟩) ∧
      (∀ (net : Network ν) (token : Option String) (b : Browser ν),
        net (requestsOf b.trace) (cartRequest token) = .ok r →
        (fetchCartItems net token b).1 = .error ⟨statusPrefix r ++ sharedErrorDetail r⟩) ∧
      (∀ (net : Network ν) (productId : String) (quantity : Int) (token : Option String)
          (b : Browser ν),
        net (requestsOf b.trace) (removeRequest productId quantity token) = .ok r →
        (removeCartItem net productId quantity token b).1
          = .error ⟨statusPrefix r ++ sharedErrorDetail r⟩) ∧
      (∀ (net : Network ν) (name email password : String) (b : Browser ν),
        net (requestsOf b.trace) (registerRequest name email password) = .ok r →
        (registerUser net name email password b).1
          = .error ⟨statusPrefix r ++ sharedErrorDetail r⟩) ∧
      (∀ (net : Network ν) (cart : List (CartItem ν)) (shipping : ShippingDetails)
          (b : Browser ν), truthyItem (b.storage.getItem "jwtToken") = true →
        net (requestsOf b.trace)
          (orderRequest (b.storage.getItem "jwtToken") cart shipping) = .ok r →
        (placeOrder net cart shipping b).1 = .error ⟨statusPrefix r ++ sharedErrorDetail r⟩) ∧
      (∀ (net : Network ν) (token : Option String) (b : Browser ν),
        net (requestsOf b.trace) (historyRequest token) = .ok r →
        (fetchOrderHistory net token b).1
          = .error ⟨statusPrefix r ++ sharedErrorDetail r⟩)) := by
  refine ⟨fun net b h => fetchProducts_refused net b r h hr,
    fun net email password b h => loginUser_refused net email password b r h hr, ?_⟩
  intro hnull
  have he := errorDataError_eq r hnull
  refine ⟨?_, ?_, ?_, ?_, ?_, ?_⟩
  · intro net productId quantity token b h
    rw [addToCart_refused net productId quantity token b r h hr, he]
  · intro net token b h
    rw [fetchCartItems_refused net token b r h hr, he]
  · intro net productId quantity token b h
    rw [removeCartItem_refused net productId quantity token b r h hr, he]
  · intro net name email password b h
    rw [registerUser_refused net name email password b r h hr, he]
  · intro net cart shipping b htok h
    rw [placeOrder_refused net cart shipping b r htok h hr, he]
  · intro net token b h
    rw [fetchOrderHistory_refused net token b r h hr, he]

/-- C9 (as amended) at a concrete input: a 500 answer with a plain-text body, received in a
browser without a stored token by `fetchProducts` and `loginUser`, and by `addToCart` from a
backend that answers other requests differently. -/
theorem error_message_per_operation_witness :
    (fetchProducts (respond plainTextFailure) (Browser.fresh : Browser Int)).1
      = .error ⟨"HTTP error! status: 500 - Internal Server Error"⟩ ∧
    (loginUser (respond plainTextFailure) "ann@example.com" "wrong"
      (Browser.fresh : Browser Int)).1
      = .error ⟨"HTTP error! status: 500 - upstream timed out"⟩ ∧
    (addToCart cartDownBackend "p1" 1 none (Browser.fresh : Browser Int)).1
      = .error ⟨"HTTP error! status: 500 - Unknown error"⟩ :=
  ⟨(error_message_per_operation plainTextFailure rfl).1 (respond plainTextFailure)
      Browser.fresh rfl,
   (error_message_per_operation plainTextFailure rfl).2.1 (respond plainTextFailure)
      "ann@example.com" "wrong" Browser.fresh rfl,
   ((error_message_per_operation plainTextFailure rfl).2.2 (fun h => Except.noConfusion h)).1
      cartDownBackend "p1" 1 none Browser.fresh rfl⟩

/-- C9 as stated fails: for a plain-text body and for an empty body `addToCart` reports
`Unknown error`, not the status line; for a plain-text body `loginUser` reports the body text;
for a JSON body with a `message`, `fetchProducts` reports the status line, not the message. -/
theorem error_detail_not_as_specified :
    thrownMessage (addToCart (respond plainTextFailure) "p1" 1 (some "tok-1")
      (shopper []).browser).1 = some "HTTP error! status: 500 - Unknown error" ∧
    specErrorMessage plainTextFailure = "HTTP error! status: 500 - Internal Server Error" ∧
    thrownMessage (addToCart (respond plainTextFailure) "p1" 1 (some "tok-1")
      (shopper []).browser).1 ≠ some (specErrorMessage plainTextFailure) ∧
    thrownMessage (addToCart (respond emptyFailure) "p1" 1 (some "tok-1")
      (shopper []).browser).1 ≠ some (specErrorMessage emptyFailure) ∧
    thrownMessage (loginUser (respond plainTextFailure) "ann@example.com" "wrong"
      (shopper []).browser).1 ≠ some (specErrorMessage plainTextFailure) ∧
    thrownMessage (fetchProducts (respond jsonFailure) (shopper []).browser).1
      ≠ some (specErrorMessage jsonFailure) := by
  decide

/-- C10 (as amended): for every non-ok HTTP response, whatever the backend and the browser
state in which it is received, the six operations `addToCart`, `fetchCartItems`,
`removeCartItem`, `registerUser`, `placeOrder` (reached only with a stored token) and
`fetchOrderHistory` throw one and the same error, built from the status and the body alone;
for a body other than the JSON value `null` its message is the status code followed by the
detail the six share. `fetchProducts` and `loginUser` build a message of the same shape with
a detail of their own: the status line for `fetchProducts`, and for `loginUser` the
`message`, else the `error`, else `Unknown Error` of a JSON body, or the raw body text. -/
theorem six_operations_share_error {ν : Type} (r : HttpResponse ν) (hr : r.ok = false) :
    ∃ e : JsError,
      (r.json ≠ .ok .null → e.message = statusPrefix r ++ sharedErrorDetail r) ∧
      (∀ (net : Network ν) (productId : String) (quantity : Int) (token : Option String)
          (b : Browser ν),
        net (requestsOf b.trace) (addToCartRequest productId quantity token) = .ok r →
        (addToCart net productId quantity token b).1 = .error e) ∧
      (∀ (net : Network ν) (token : Option String) (b : Browser ν),
        net (requestsOf b.trace) (cartRequest token) = .ok r →
        (fetchCartItems net token b).1 = .error e) ∧
      (∀ (net : Network ν) (productId : String) (quantity : Int) (token : Option String)
          (b : Browser ν),
        net (requestsOf b.trace) (removeRequest productId quantity token) = .ok r →
        (removeCartItem net productId quantity token b).1 = .error e) ∧
      (∀ (net : Network ν) (name email password : String) (b : Browser ν),
        net (requestsOf b.trace) (registerRequest name email password) = .ok r →
        (registerUser net name email password b).1 = .error e) ∧
      (∀ (net : Network ν) (cart : List (CartItem ν)) (shipping : ShippingDetails)
          (b : Browser ν), truthyItem (b.storage.getItem "jwtToken") = true →
        net (requestsOf b.trace)
          (orderRequest (b.storage.getItem "jwtToken") cart shipping) = .ok r →
        (placeOrder net cart shipping b).1 = .error e) ∧
      (∀ (net : Network ν) (token : Option String) (b : Browser ν),
        net (requestsOf b.trace) (historyRequest token) = .ok r →
        (fetchOrderHistory net token b).1 = .error e) ∧
      (∀ (net : Network ν) (b : Browser ν),
        net (requestsOf b.trace) productsRequest = .ok r →
        (fetchProducts net b).1 = .error ⟨statusPrefix r ++ r.statusText⟩) ∧
      (∀ (net : Network ν) (email password : String) (b : Browser ν),
        net (requestsOf b.trace) (loginRequest email password) = .ok r →
        (loginUser net email password b).1
          = .error ⟨statusPrefix r ++ loginErrorDetail r⟩) := by
  refine ⟨errorDataError r, ?_,
    fun net productId quantity token b h => addToCart_refused net productId quantity token b r h hr,
    fun net token b h => fetchCartItems_refused net token b r h hr,
    fun net productId quantity token b h =>
      removeCartItem_refused net productId quantity token b r h hr,
    fun net name email password b h => registerUser_refused net name email password b r h hr,
    fun net cart shipping b htok h => placeOrder_refused net cart shipping b r htok h hr,
    fun net token b h => fetchOrderHistory_refused net token b r h hr,
    fun net b h => fetchProducts_refused net b r h hr,
    fun net email password b h => loginUser_refused net email password b r h hr⟩
  intro hnull
  rw [errorDataError_eq r hnull]

/-- C10 (as amended) at a concrete input: a 409 answer with a JSON body; `addToCart` and
`fetchOrderHistory` in a browser without a stored token throw the same error, and
`fetchProducts` reports the status line. -/
theorem six_operations_share_error_witness :
    ∃ e : JsError,
      (addToCart (respond jsonFailure) "p1" 1 none (Browser.fresh : Browser Int)).1
        = .error e ∧
      (fetchOrderHistory (respond jsonFailure) none (Browser.fresh : Browser Int)).1
        = .error e ∧
      e.message = "HTTP error! status: 409 - Out of stock" ∧
      (fetchProducts (respond jsonFailure) (Browser.fresh : Browser Int)).1
        = .error ⟨"HTTP error! status: 409 - Conflict"⟩ :=
  match six_operations_share_error jsonFailure rfl with
  | ⟨e, hmsg, hadd, _, _, _, _, hhist, hprod, _⟩ =>
    ⟨e, hadd (respond jsonFailure) "p1" 1 none Browser.fresh rfl,
      hhist (respond jsonFailure) none Browser.fresh rfl,
      (hmsg (by simp [jsonFailure])).trans rfl,
      hprod (respond jsonFailure) Browser.fresh rfl⟩

/-- C10 as stated fails: for the same status 500 and the same plain-text body,
`fetchProducts`, `addToCart` and `loginUser` build three different messages. -/
theorem error_message_depends_on_operation :
    thrownMessage (fetchProducts (respond plainTextFailure) (shopper []).browser).1
      = some "HTTP error! status: 500 - Internal Server Error" ∧
    thrownMessage (addToCart (respond plainTextFailure) "p1" 1 (some "tok-1")
      (shopper []).browser).1 = some "HTTP error! status: 500 - Unknown error" ∧
    thrownMessage (loginUser (respond plainTextFailure) "ann@example.com" "wrong"
      (shopper []).browser).1 = some "HTTP error! status: 500 - upstream timed out" ∧
    thrownMessage (fetchProducts (respond plainTextFailure) (shopper []).browser).1
      ≠ thrownMessage (addToCart (respond plainTextFailure) "p1" 1 (some "tok-1")
          (shopper []).browser).1 ∧
    thrownMessage (addToCart (respond plainTextFailure) "p1" 1 (some "tok-1")
      (shopper []).browser).1
      ≠ thrownMessage (loginUser (respond plainTextFailure) "ann@example.com" "wrong"
          (shopper []).browser).1 ∧
    thrownMessage (fetchProducts (respond plainTextFailure) (shopper []).browser).1
      ≠ thrownMessage (loginUser (respond plainTextFailure) "ann@example.com" "wrong"
          (shopper []).browser).1 := by
  decide


/-! ## Messages after logout -/

theorem handleLogout_messages {ν : Type} (w : World ν) :
    (handleLogout w).app.fetchError = none ∧ (handleLogout w).app.checkoutError = none ∧
    (handleLogout w).app.showCheckoutMessage = w.app.showCheckoutMessage := by
  simp [handleLogout]

/-- C12 at the failing input: in the state reached by logging in, adding a product and
checking out, the success notice is shown; `handleLogout` clears `fetchError` and
`checkoutError` but leaves the notice shown, while the banner's close button hides it. -/
theorem handleLogout_leaves_notice :
    orderJustPlaced.app.showCheckoutMessage = true ∧
    (handleLogout orderJustPlaced).app.fetchError = none ∧
    (handleLogout orderJustPlaced).app.checkoutError = none ∧
    (handleLogout orderJustPlaced).app.showCheckoutMessage = true ∧
    alertBanner (handleLogout orderJustPlaced).app
      = some ⟨false, "Order Placed!",
          "Your order has been successfully placed. Thank you for shopping with us!"⟩ ∧
    (dismissAlert orderJustPlaced.app).showCheckoutMessage = false := by
  decide


/-! ## Login and registration: failure and success -/

theorem persistSession_error {ν : Type} (data : JsonBody ν) (b : Browser ν) (e : JsError)
    (h : (persistSession data b).1 = .error e) : (persistSession data b).2 = b := by
  cases data with
  | null => rfl
  | object fields => simp [persistSession, JsonBody.prop] at h
  | array items => simp [persistSession, JsonBody.prop] at h

theorem loginUser_error_storage {ν : Type} (net : Network ν) (email password : String)
    (b : Browser ν) (e : JsError) (h : (loginUser net email password b).1 = .error e) :
    (loginUser net email password b).2.storage = b.storage := by
  unfold loginUser at h ⊢
  simp only at h ⊢
  split at h
  · rfl
  · rename_i r hf
    by_cases hok : (!r.ok) = true
    · rw [if_pos hok]
      rfl
    · rw [if_neg hok] at h ⊢
      rcases hj : awaitJson r with e' | data
      · rfl
      · simp only [hj] at h
        rw [persistSession_error _ _ e h]
        rfl

theorem registerUser_error_storage {ν : Type} (net : Network ν) (name email password : String)
    (b : Browser ν) (e : JsError) (h : (registerUser net name email password b).1 = .error e) :
    (registerUser net name email password b).2.storage = b.storage := by
  unfold registerUser at h ⊢
  simp only at h ⊢
  split at h
  · rfl
  · rename_i r hf
    by_cases hok : (!r.ok) = true
    · rw [if_pos hok]
      rfl
    · rw [if_neg hok] at h ⊢
      rcases hj : awaitJson r with e' | data
      · rfl
      · simp only [hj] at h
        rw [persistSession_error _ _ e h]
        rfl

theorem orElse_ne_empty (m fallback : String) (h : fallback ≠ "") : orElse m fallback ≠ "" := by
  unfold orElse
  split
  · exact h
  · assumption

theorem handleLoginSuccess_of_error {ν : Type} (net : Network ν) (email password : String)
    (w : World ν) (e : JsError) (h : (loginUser net email password w.browser).1 = .error e) :
    handleLoginSuccess net email password w =
      { app := { w.app with
          fetchError := some (orElse e.message "Login failed. Please check your credentials.") },
        browser := (loginUser net email password w.browser).2 } := by
  unfold handleLoginSuccess
  rcases hl : loginUser net email password w.browser with ⟨res, b⟩
  rw [hl] at h
  simp only at h
  subst h
  rfl

theorem handleRegisterSuccess_of_error {ν : Type} (net : Network ν)
    (name email password : String) (w : World ν) (e : JsError)
    (h : (registerUser net name email password w.browser).1 = .error e) :
    handleRegisterSuccess net name email password w =
      { app := { w.app with
          fetchError := some (orElse e.message
            "Registration failed. This email might already be registered.") },
        browser := (registerUser net name email password w.browser).2 } := by
  unfold handleRegisterSuccess
  rcases hl : registerUser net name email password w.browser with ⟨res, b⟩
  rw [hl] at h
  simp only at h
  subst h
  rfl

theorem loginUser_fails {ν : Type} (net : Network ν) (email password : String) (b : Browser ν)
    (h : ∀ r, net (requestsOf b.trace) ⟨"POST", API_BASE_URL ++ "/auth/login",
      [("Content-Type", "application/json")], .credentials email password⟩ = .ok r →
      r.ok = false) :
    ∃ e, (loginUser net email password b).1 = .error e := by
  unfold loginUser
  simp only [fetch, Browser.call, requestsOf_append, requestsOf, List.append_nil]
  split
  · exact ⟨_, rfl⟩
  · rename_i r hr
    simp [h r hr]

theorem registerUser_fails {ν : Type} (net : Network ν) (name email password : String)
    (b : Browser ν)
    (h : ∀ r, net (requestsOf b.trace) ⟨"POST", API_BASE_URL ++ "/auth/register",
      [("Content-Type", "application/json")], .registration name email password⟩ = .ok r →
      r.ok = false) :
    ∃ e, (registerUser net name email password b).1 = .error e := by
  unfold registerUser
  simp only [fetch, Browser.call, requestsOf_append, requestsOf, List.append_nil]
  split
  · exact ⟨_, rfl⟩
  · rename_i r hr
    simp [h r hr]

theorem authAttempt_fails {ν : Type} (net : Network ν) (attempt : AuthAttempt) (b : Browser ν)
    (h : ∀ r, net (requestsOf b.trace) attempt.request = .ok r → r.ok = false) :
    ∃ e, (attempt.call net b).1 = .error e := by
  cases attempt with
  | login email password => exact loginUser_fails net email password b h
  | register name email password => exact registerUser_fails net name email password b h

/-- C13 (as amended): when the request of a login or of a registration fails, by a transport
failure or by any non-ok status, storage is left as it was (so `jwtToken`, `userId` and
`username` keep their values) and `isLoggedIn`, `currentUser` and the page are unchanged. When
the request is the one `handleLoginSuccess` or `handleRegisterSuccess` makes, `fetchError` is
set to a non-empty text: the message of the thrown error, or the handler's fixed fallback when
that message is empty. When it is the first request of the login form, the text goes to the
form's own `error` and the controller state, `fetchError` included, is untouched. -/
theorem failed_auth_keeps_session {ν : Type} (net : Network ν) (attempt : AuthAttempt)
    (w : World ν)
    (hfail : ∀ r, net (requestsOf w.browser.trace) attempt.request = .ok r → r.ok = false) :
    ∃ e, (attempt.call net w.browser).1 = .error e ∧
      (attempt.handle net w).app.fetchError = some (orElse e.message attempt.fallback) ∧
      orElse e.message attempt.fallback ≠ "" ∧
      (attempt.handle net w).browser.storage = w.browser.storage ∧
      (attempt.handle net w).app.isLoggedIn = w.app.isLoggedIn ∧
      (attempt.handle net w).app.currentUser = w.app.currentUser ∧
      (attempt.handle net w).app.currentPage = w.app.currentPage ∧
      (∀ form : LoginForm, attempt = .login form.email form.password →
        (Login.handleSubmit net form w).1.error
          = orElse e.message "Login failed. Please check your credentials." ∧
        (Login.handleSubmit net form w).2.app = w.app ∧
        (Login.handleSubmit net form w).2.browser.storage = w.browser.storage) := by
  obtain ⟨e, he⟩ := authAttempt_fails net attempt w.browser hfail
  refine ⟨e, he, ?_⟩
  cases attempt with
  | login email password =>
    simp only [AuthAttempt.call] at he
    have hs := loginUser_error_storage net email password w.browser e he
    simp only [AuthAttempt.handle, AuthAttempt.fallback]
    rw [handleLoginSuccess_of_error net email password w e he]
    refine ⟨rfl, orElse_ne_empty _ _ (by decide), hs, rfl, rfl, rfl, ?_⟩
    intro form hform
    injection hform with h1 h2
    subst h1
    subst h2
    rcases hl : loginUser net form.email form.password w.browser with ⟨res, b⟩
    rw [hl] at he hs
    simp only at he hs
    subst he
    simp [Login.handleSubmit, hl, hs]
  | register name email password =>
    simp only [AuthAttempt.call] at he
    have hs := registerUser_error_storage net name email password w.browser e he
    simp only [AuthAttempt.handle, AuthAttempt.fallback]
    rw [handleRegisterSuccess_of_error net name email password w e he]
    refine ⟨rfl, orElse_ne_empty _ _ (by decide), hs, rfl, rfl, rfl, ?_⟩
    intro form hform
    cases hform

/-- C13 (as amended) at a concrete input: a wrong password on a backend that would grant a
registration. -/
theorem failed_auth_keeps_session_witness :
    ∃ e, (loginUser registerOnlyBackend "ann@example.com" "wrong" visitor.browser).1
        = .error e ∧
      (handleLoginSuccess registerOnlyBackend "ann@example.com" "wrong" visitor).app.fetchError
        = some (orElse e.message "Login failed. Please check your credentials.") ∧
      (handleLoginSuccess registerOnlyBackend "ann@example.com" "wrong"
        visitor).browser.storage = visitor.browser.storage :=
  match failed_auth_keeps_session registerOnlyBackend (.login "ann@example.com" "wrong") visitor
    (fun r h => by cases h; rfl) with
  | ⟨e, h1, h2, _, h4, _⟩ => ⟨e, h1, h2, h4⟩

/-- C13 as stated fails: when the failing login request is the one the login form makes
(`Login.handleSubmit`), the controller's transient error is not set: `fetchError` stays null,
`checkoutError` stays empty and no banner is shown; the message is in the form's `error`. -/
theorem form_login_failure_not_in_controller :
    (Login.handleSubmit (respond invalidCredentials) ⟨"ann@example.com", "wrong", "", false⟩
      visitor).2.app.fetchError = none ∧
    errorSet (Login.handleSubmit (respond invalidCredentials)
      ⟨"ann@example.com", "wrong", "", false⟩ visitor).2.app = false ∧
    alertBanner (Login.handleSubmit (respond invalidCredentials)
      ⟨"ann@example.com", "wrong", "", false⟩ visitor).2.app = none ∧
    (Login.handleSubmit (respond invalidCredentials) ⟨"ann@example.com", "wrong", "", false⟩
      visitor).1.error = "HTTP error! status: 401 - Invalid credentials" := by
  decide

theorem loginUser_success {ν : Type} (net : Network ν) (email password : String)
    (b : Browser ν) (r : HttpResponse ν) (fields : List (String × JsVal))
    (hnet : net (requestsOf b.trace) ⟨"POST", API_BASE_URL ++ "/auth/login",
      [("Content-Type", "application/json")], .credentials email password⟩ = .ok r)
    (hok : r.ok = true) (hjson : r.json = .ok (.object fields)) :
    loginUser net email password b =
      (.ok (.object fields),
        { storage := ((b.storage.setItem "jwtToken"
              ((fields.lookup "jwtToken").getD .undefined).toStr).setItem "userId"
              ((fields.lookup "userId").getD .undefined).toStr).setItem "username"
              ((fields.lookup "username").getD .undefined).toStr,
          trace := b.trace ++ [.called .loginUser] ++ [.fetch ⟨"POST",
            API_BASE_URL ++ "/auth/login", [("Content-Type", "application/json")],
            .credentials email password⟩],
          timers := b.timers }) := by
  simp [loginUser, fetch, Browser.call, Browser.send, requestsOf_append, requestsOf, hnet, hok,
    awaitJson, hjson, persistSession, JsonBody.prop, setAuthToken]

theorem registerUser_success {ν : Type} (net : Network ν) (name email password : String)
    (b : Browser ν) (r : HttpResponse ν) (fields : List (String × JsVal))
    (hnet : net (requestsOf b.trace) ⟨"POST", API_BASE_URL ++ "/auth/register",
      [("Content-Type", "application/json")], .registration name email password⟩ = .ok r)
    (hok : r.ok = true) (hjson : r.json = .ok (.object fields)) :
    registerUser net name email password b =
      (.ok (.object fields),
        { storage := ((b.storage.setItem "jwtToken"
              ((fields.lookup "jwtToken").getD .undefined).toStr).setItem "userId"
              ((fields.lookup "userId").getD .undefined).toStr).setItem "username"
              ((fields.lookup "username").getD .undefined).toStr,
          trace := b.trace ++ [.called .registerUser] ++ [.fetch ⟨"POST",
            API_BASE_URL ++ "/auth/register", [("Content-Type", "application/json")],
            .registration name email password⟩],
          timers := b.timers }) := by
  simp [registerUser, fetch, Browser.call, Browser.send, requestsOf_append, requestsOf, hnet,
    hok, awaitJson, hjson, persistSession, JsonBody.prop, setAuthToken]

theorem fetchProducts_storage {ν : Type} (net : Network ν) (b : Browser ν) :
    (fetchProducts net b).2.storage = b.storage := by
  unfold fetchProducts
  simp only
  split
  · rfl
  · split <;> rfl

theorem fetchCartItems_storage {ν : Type} (net : Network ν) (token : Option String)
    (b : Browser ν) : (fetchCartItems net token b).2.storage = b.storage := by
  rw [fetchCartItems_browser]
  rfl

theorem fetchOrderHistory_storage {ν : Type} (net : Network ν) (token : Option String)
    (b : Browser ν) : (fetchOrderHistory net token b).2.storage = b.storage := by
  unfold fetchOrderHistory
  simp only
  split
  · rfl
  · split <;> rfl

theorem placeOrder_storage {ν : Type} (net : Network ν) (cart : List (CartItem ν))
    (s : ShippingDetails) (b : Browser ν) : (placeOrder net cart s b).2.storage = b.storage := by
  unfold placeOrder
  simp only [Browser.call, Browser.send]
  split
  · rfl
  · split
    · rfl
    · split <;> rfl

theorem fetchUserDetails_storage {ν : Type} (b : Browser ν) :
    (fetchUserDetails b).2.storage = b.storage := by
  unfold fetchUserDetails
  simp only
  split <;> rfl

theorem updateCartFromBackend_answered {ν : Type} (net : Network ν) (flag : Bool)
    (x : World ν) (hnone : x.app.fetchError = none)
    (hre : flag = true → truthyItem (x.browser.storage.getItem "jwtToken") = true →
      ∃ lines b', fetchCartItems net (x.browser.storage.getItem "jwtToken") x.browser
        = (.ok (.array lines), b')) :
    (updateCartFromBackend net flag x).browser.storage = x.browser.storage ∧
    (updateCartFromBackend net flag x).app.isLoggedIn = x.app.isLoggedIn ∧
    (updateCartFromBackend net flag x).app.currentUser = x.app.currentUser ∧
    (updateCartFromBackend net flag x).app.currentPage = x.app.currentPage ∧
    (updateCartFromBackend net flag x).app.fetchError = none := by
  by_cases hg : (flag && truthyItem (x.browser.storage.getItem "jwtToken")) = true
  · have hg' := hg
    simp only [Bool.and_eq_true] at hg'
    obtain ⟨lines, b', hf⟩ := hre hg'.1 hg'.2
    have hs := fetchCartItems_storage net (x.browser.storage.getItem "jwtToken") x.browser
    rw [hf] at hs
    simp only at hs
    simp [updateCartFromBackend, hg'.1, hg'.2, hf, formatCartItems, hs]
  · simp only [Bool.not_eq_true] at hg
    simp [updateCartFromBackend, hg, hnone]

theorem authAttempt_success {ν : Type} (net : Network ν) (attempt : AuthAttempt)
    (b : Browser ν) (r : HttpResponse ν) (fields : List (String × JsVal))
    (hnet : net (requestsOf b.trace) attempt.request = .ok r)
    (hok : r.ok = true) (hjson : r.json = .ok (.object fields)) :
    (attempt.call net b).1 = .ok (.object fields) ∧
    (attempt.call net b).2.storage = ((b.storage.setItem "jwtToken"
        ((fields.lookup "jwtToken").getD .undefined).toStr).setItem "userId"
        ((fields.lookup "userId").getD .undefined).toStr).setItem "username"
        ((fields.lookup "username").getD .undefined).toStr := by
  cases attempt with
  | login email password =>
    simp only [AuthAttempt.call]
    rw [loginUser_success net email password b r fields hnet hok hjson]
    exact ⟨rfl, rfl⟩
  | register name email password =>
    simp only [AuthAttempt.call]
    rw [registerUser_success net name email password b r fields hnet hok hjson]
    exact ⟨rfl, rfl⟩

theorem authAttempt_handle_ok {ν : Type} (net : Network ν) (attempt : AuthAttempt)
    (w : World ν) (data : JsonBody ν) (h : (attempt.call net w.browser).1 = .ok data) :
    attempt.handle net w
      = afterAuth net attempt.fallback data ⟨w.app, (attempt.call net w.browser).2⟩ := by
  cases attempt with
  | login email password =>
    simp only [AuthAttempt.call] at h ⊢
    simp only [AuthAttempt.handle, AuthAttempt.fallback, handleLoginSuccess]
    rcases hl : loginUser net email password w.browser with ⟨res, b⟩
    rw [hl] at h
    simp only at h
    subst h
    rfl
  | register name email password =>
    simp only [AuthAttempt.call] at h ⊢
    simp only [AuthAttempt.handle, AuthAttempt.fallback, handleRegisterSuccess]
    rcases hl : registerUser net name email password w.browser with ⟨res, b⟩
    rw [hl] at h
    simp only at h
    subst h
    rfl

/-- C14 (as amended): when the login or the register endpoint answers with an ok response
whose JSON body has the properties `jwtToken`, `userId` and `username`, then right after the
API call storage holds the string forms of these three values under the keys `jwtToken`,
`userId` and `username`, every other key being unchanged; and after the handler storage still
holds them, `isLoggedIn` is true, `currentUser` is the pair of `userId` and `username`, the
page is `products` and `fetchError` is null, provided that the cart re-fetch the handler
itself starts when `isLoggedIn` was already true and the stored token is non-empty is
answered with the cart. No other operation of the API client changes storage. -/
theorem successful_auth_populates_session {ν : Type} (net : Network ν) :
    (∀ (attempt : AuthAttempt) (w : World ν) (r : HttpResponse ν)
        (fields : List (String × JsVal)) (jwtToken userId username : JsVal),
      net (requestsOf w.browser.trace) attempt.request = .ok r → r.ok = true →
      r.json = .ok (.object fields) → fields.lookup "jwtToken" = some jwtToken →
      fields.lookup "userId" = some userId → fields.lookup "username" = some username →
      ((attempt.call net w.browser).2.storage.getItem "jwtToken" = some jwtToken.toStr ∧
        (attempt.call net w.browser).2.storage.getItem "userId" = some userId.toStr ∧
        (attempt.call net w.browser).2.storage.getItem "username" = some username.toStr ∧
        (∀ k, k ≠ "jwtToken" → k ≠ "userId" → k ≠ "username" →
          (attempt.call net w.browser).2.storage.getItem k = w.browser.storage.getItem k)) ∧
      ((w.app.isLoggedIn = true → truthyItem (some jwtToken.toStr) = true →
          ∃ lines b', fetchCartItems net (some jwtToken.toStr) (attempt.call net w.browser).2
            = (.ok (.array lines), b')) →
        (attempt.handle net w).browser.storage = (attempt.call net w.browser).2.storage ∧
        (attempt.handle net w).app.isLoggedIn = true ∧
        (attempt.handle net w).app.currentUser = some ⟨userId, username⟩ ∧
        (attempt.handle net w).app.currentPage = "products" ∧
        (attempt.handle net w).app.fetchError = none)) ∧
    (∀ (b : Browser ν) (token : Option String) (productId : String) (quantity : Int)
        (cart : List (CartItem ν)) (shipping : ShippingDetails),
      (fetchProducts net b).2.storage = b.storage ∧
      (addToCart net productId quantity token b).2.storage = b.storage ∧
      (fetchCartItems net token b).2.storage = b.storage ∧
      (removeCartItem net productId quantity token b).2.storage = b.storage ∧
      (placeOrder net cart shipping b).2.storage = b.storage ∧
      (fetchOrderHistory net token b).2.storage = b.storage ∧
      (fetchUserDetails b).2.storage = b.storage) := by
  constructor
  · intro attempt w r fields jwtToken userId username hnet hok hjson ht hu hn
    obtain ⟨hres, hst⟩ := authAttempt_success net attempt w.browser r fields hnet hok hjson
    simp only [ht, hu, hn, Option.getD_some] at hst
    have hkey : (attempt.call net w.browser).2.storage.getItem "jwtToken"
        = some jwtToken.toStr := by
      rw [hst]
      rfl
    refine ⟨⟨hkey, ?_, ?_, ?_⟩, ?_⟩
    · rw [hst]
      rfl
    · rw [hst]
      rfl
    · intro k k1 k2 k3
      rw [hst]
      simp [Storage.getItem, Storage.setItem, k1, k2, k3]
    · intro hre
      rw [authAttempt_handle_ok net attempt w _ hres]
      simp only [afterAuth, JsonBody.prop, hu, hn, Option.getD_some]
      have := updateCartFromBackend_answered net w.app.isLoggedIn
        { app := { w.app with
            isLoggedIn := true, currentUser := some ⟨userId, username⟩,
            currentPage := "products", fetchError := none },
          browser := (attempt.call net w.browser).2 } rfl
        (by
          intro h1 h2
          simp only [hkey] at h2 ⊢
          exact hre h1 h2)
      exact this
  · intro b token productId quantity cart shipping
    exact ⟨fetchProducts_storage net b, addToCart_storage net productId quantity token b,
      fetchCartItems_storage net token b, removeCartItem_storage net productId quantity token b,
      placeOrder_storage net cart shipping b, fetchOrderHistory_storage net token b,
      fetchUserDetails_storage b⟩

/-- C14 (as amended) at a concrete input: a user whose `isLoggedIn` is still true logs in
again on a backend that answers the cart re-fetch. -/
theorem successful_auth_populates_session_witness :
    (handleLoginSuccess storeBackend "ann@example.com" "pw" staleShopperOnLogin).app.fetchError
      = none ∧
    (handleLoginSuccess storeBackend "ann@example.com" "pw"
      staleShopperOnLogin).app.currentUser = some ⟨.str "u1", .str "ann@example.com"⟩ ∧
    (loginUser storeBackend "ann@example.com" "pw"
      staleShopperOnLogin.browser).2.storage.getItem "jwtToken" = some "tok-1" :=
  ⟨(((successful_auth_populates_session storeBackend).1 (.login "ann@example.com" "pw")
      staleShopperOnLogin sessionGranted
      [("jwtToken", .str "tok-1"), ("userId", .str "u1"), ("username", .str "ann@example.com")]
      (.str "tok-1") (.str "u1") (.str "ann@example.com") rfl rfl rfl rfl rfl rfl).2
      (fun _ _ => ⟨[⟨"p1", "Widget", 10, "/p1.png", 0⟩],
        (fetchCartItems storeBackend (some "tok-1")
          (loginUser storeBackend "ann@example.com" "pw" staleShopperOnLogin.browser).2).2,
        rfl⟩)).2.2.2.2,
   (((successful_auth_populates_session storeBackend).1 (.login "ann@example.com" "pw")
      staleShopperOnLogin sessionGranted
      [("jwtToken", .str "tok-1"), ("userId", .str "u1"), ("username", .str "ann@example.com")]
      (.str "tok-1") (.str "u1") (.str "ann@example.com") rfl rfl rfl rfl rfl rfl).2
      (fun _ _ => ⟨[⟨"p1", "Widget", 10, "/p1.png", 0⟩],
        (fetchCartItems storeBackend (some "tok-1")
          (loginUser storeBackend "ann@example.com" "pw" staleShopperOnLogin.browser).2).2,
        rfl⟩)).2.2.1,
   ((successful_auth_populates_session storeBackend).1 (.login "ann@example.com" "pw")
      staleShopperOnLogin sessionGranted
      [("jwtToken", .str "tok-1"), ("userId", .str "u1"), ("username", .str "ann@example.com")]
      (.str "tok-1") (.str "u1") (.str "ann@example.com") rfl rfl rfl rfl rfl rfl).1.1⟩

/-- C14 as stated fails: a user whose `isLoggedIn` is still true and whose storage was
emptied logs in again and the endpoint grants the session. When the cart re-fetch of the
handler is answered 500, `fetchError` holds its message at the end; when it is answered
`Session expired`, the user ends logged out with the token removed again. -/
theorem relogin_ends_with_error_or_logout :
    thrownMessage (loginUser cartDownBackend "ann@example.com" "pw"
      staleShopperOnLogin.browser).1 = none ∧
    (handleLoginSuccess cartDownBackend "ann@example.com" "pw"
      staleShopperOnLogin).app.fetchError = some "HTTP error! status: 500 - Unknown error" ∧
    thrownMessage (loginUser cartExpiredBackend "ann@example.com" "pw"
      staleShopperOnLogin.browser).1 = none ∧
    (handleLoginSuccess cartExpiredBackend "ann@example.com" "pw"
      staleShopperOnLogin).app.isLoggedIn = false ∧
    (handleLoginSuccess cartExpiredBackend "ann@example.com" "pw"
      staleShopperOnLogin).app.currentUser = none ∧
    (handleLoginSuccess cartExpiredBackend "ann@example.com" "pw"
      staleShopperOnLogin).browser.storage.getItem "jwtToken" = none ∧
    (handleRegisterSuccess cartDownBackend "Ann" "ann@example.com" "pw"
      staleShopperOnLogin).app.fetchError = some "HTTP error! status: 500 - Unknown error" := by
  decide

/-! ## Cart synchronisation -/

/-- C15: in a logged-in state with a stored token, when `fetchCartItems` returns the array
`lines`, `updateCartFromBackend` sets `cartItems` to a list of the same length whose entry at
each position is built from the entry of `lines` at that position (`id` from `productId`,
`name` from `productName`, `price`, `imageUrl` and `quantity` copied); the previous cart does
not enter the result, and `fetchError` is null. -/
theorem updateCartFromBackend_replaces_cart {ν : Type} (net : Network ν) (w : World ν)
    (lines : List (ServerCartLine ν)) (b : Browser ν) (hlog : w.app.isLoggedIn = true)
    (htok : truthyItem (w.browser.storage.getItem "jwtToken") = true)
    (hfetch : fetchCartItems net (w.browser.storage.getItem "jwtToken") w.browser
      = (.ok (.array lines), b)) :
    (updateCartFromBackend net w.app.isLoggedIn w).app.cartItems.length = lines.length ∧
    (∀ i (h : i < lines.length),
      (updateCartFromBackend net w.app.isLoggedIn w).app.cartItems[i]? =
        some { id := lines[i].productId, name := lines[i].productName,
               price := lines[i].price, imageUrl := lines[i].imageUrl,
               quantity := lines[i].quantity }) ∧
    (∀ previous : List (CartItem ν),
      (updateCartFromBackend net w.app.isLoggedIn
        { w with app := { w.app with cartItems := previous } }).app.cartItems
        = (updateCartFromBackend net w.app.isLoggedIn w).app.cartItems) ∧
    (updateCartFromBackend net w.app.isLoggedIn w).app.fetchError = none := by
  rw [hlog]
  have hu : ∀ app : AppState ν, (updateCartFromBackend net true ⟨app, w.browser⟩).app
      = { app with cartItems := lines.map formatCartItem, fetchError := none } := by
    intro app
    simp [updateCartFromBackend, htok, hfetch, formatCartItems]
  have hw : (updateCartFromBackend net true w).app
      = { w.app with cartItems := lines.map formatCartItem, fetchError := none } := hu w.app
  refine ⟨?_, ?_, ?_, ?_⟩
  · rw [hw]
    simp
  · intro i h
    rw [hw]
    simp [List.getElem?_map, List.getElem?_eq_getElem h, formatCartItem]
  · intro previous
    rw [hw, hu]
  · rw [hw]

/-- C15 at a concrete input: a shopper with an old cart and a backend holding one line. -/
theorem updateCartFromBackend_replaces_cart_witness :
    (updateCartFromBackend countingCart true (shopper exampleCart)).app.cartItems.length
      = [(⟨"p1", "Widget", 10, "/p1.png", 0⟩ : ServerCartLine Int)].length ∧
    (updateCartFromBackend countingCart true (shopper exampleCart)).app.fetchError = none :=
  ⟨(updateCartFromBackend_replaces_cart countingCart (shopper exampleCart)
      [⟨"p1", "Widget", 10, "/p1.png", 0⟩]
      (fetchCartItems countingCart (some "tok-1") (shopper exampleCart).browser).2
      rfl rfl rfl).1,
   (updateCartFromBackend_replaces_cart countingCart (shopper exampleCart)
      [⟨"p1", "Widget", 10, "/p1.png", 0⟩]
      (fetchCartItems countingCart (some "tok-1") (shopper exampleCart).browser).2
      rfl rfl rfl).2.2.2⟩

/-- C20: in a logged-in state with a stored token, when `fetchCartItems` fails inside
`updateCartFromBackend` with an error whose message does not contain `Session expired`, no
logout happens (no call of `clearAuthToken`, storage, `isLoggedIn` and `currentUser` are
unchanged), the cart is unchanged, and `fetchError` is the error's message, or the fixed
fallback text when that message is empty. -/
theorem updateCartFromBackend_other_failure {ν : Type} (net : Network ν) (w : World ν)
    (error : JsError) (b : Browser ν) (hlog : w.app.isLoggedIn = true)
    (htok : truthyItem (w.browser.storage.getItem "jwtToken") = true)
    (hfail : fetchCartItems net (w.browser.storage.getItem "jwtToken") w.browser
      = (.error error, b))
    (hother : includes error.message "Session expired" = false) :
    callCount Op.clearAuthToken (updateCartFromBackend net w.app.isLoggedIn w).browser.trace
      = callCount Op.clearAuthToken w.browser.trace ∧
    (updateCartFromBackend net w.app.isLoggedIn w).browser.storage = w.browser.storage ∧
    (updateCartFromBackend net w.app.isLoggedIn w).app.isLoggedIn = w.app.isLoggedIn ∧
    (updateCartFromBackend net w.app.isLoggedIn w).app.currentUser = w.app.currentUser ∧
    (updateCartFromBackend net w.app.isLoggedIn w).app.cartItems = w.app.cartItems ∧
    (updateCartFromBackend net w.app.isLoggedIn w).app.fetchError
      = some (orElse error.message
          "Failed to load cart. Please log in again if session expired.") ∧
    orElse error.message "Failed to load cart. Please log in again if session expired."
      ≠ "" := by
  rw [hlog]
  have hb : b = (w.browser.call Op.fetchCartItems).send
      ⟨"GET", API_BASE_URL ++ "/cart",
        getAuthHeaders (w.browser.storage.getItem "jwtToken"), .none⟩ := by
    have := fetchCartItems_browser net (w.browser.storage.getItem "jwtToken") w.browser
    rw [hfail] at this
    exact this
  have hu : updateCartFromBackend net true w = updateCartCatch error ⟨w.app, b⟩ := by
    simp [updateCartFromBackend, htok, hfail]
  rw [hu, hb]
  refine ⟨?_, ?_, ?_, ?_, ?_, ?_, orElse_ne_empty _ _ (by decide)⟩ <;>
    simp [updateCartCatch, hother, Browser.call, Browser.send, callCount_append, callCount,
      hlog]

/-- C20 at a concrete input: the cart endpoint answers 500 with a plain-text body. -/
theorem updateCartFromBackend_other_failure_witness :
    (updateCartFromBackend (respond plainTextFailure) true (shopper exampleCart)).app.cartItems
      = exampleCart ∧
    (updateCartFromBackend (respond plainTextFailure) true (shopper exampleCart)).app.fetchError
      = some (orElse "HTTP error! status: 500 - Unknown error"
          "Failed to load cart. Please log in again if session expired.") :=
  ⟨(updateCartFromBackend_other_failure (respond plainTextFailure) (shopper exampleCart)
      ⟨"HTTP error! status: 500 - Unknown error"⟩
      (fetchCartItems (respond plainTextFailure) (some "tok-1") (shopper exampleCart).browser).2
      rfl rfl rfl (by decide)).2.2.2.2.1,
   (updateCartFromBackend_other_failure (respond plainTextFailure) (shopper exampleCart)
      ⟨"HTTP error! status: 500 - Unknown error"⟩
      (fetchCartItems (respond plainTextFailure) (some "tok-1") (shopper exampleCart).browser).2
      rfl rfl rfl (by decide)).2.2.2.2.2.1⟩


/-! ## Requests sent by the cart and order operations -/

theorem removeCartItem_browser {ν : Type} (net : Network ν) (productId : String)
    (quantity : Int) (token : Option String) (b : Browser ν) :
    (removeCartItem net productId quantity token b).2 =
      (b.call Op.removeCartItem).send
        ⟨"POST", API_BASE_URL ++ "/cart/remove", getAuthHeaders token,
          .cartLine productId quantity⟩ := by
  unfold removeCartItem
  simp only
  split
  · rfl
  · split <;> rfl

theorem updateCartFromBackend_trace {ν : Type} (net : Network ν) (flag : Bool) (w : World ν) :
    ∃ rest, (updateCartFromBackend net flag w).browser.trace = w.browser.trace ++ rest ∧
      ∀ op, op ≠ Op.fetchCartItems → op ≠ Op.clearAuthToken → callCount op rest = 0 := by
  unfold updateCartFromBackend
  split
  · have hb := fetchCartItems_browser net (w.browser.storage.getItem "jwtToken") w.browser
    rcases hf : fetchCartItems net (w.browser.storage.getItem "jwtToken") w.browser
      with ⟨res, b⟩
    rw [hf] at hb
    simp only at hb
    subst hb
    have hcatch : ∀ (error : JsError) (app : AppState ν),
        ∃ rest, (updateCartCatch error ⟨app, (w.browser.call Op.fetchCartItems).send
          ⟨"GET", API_BASE_URL ++ "/cart",
            getAuthHeaders (w.browser.storage.getItem "jwtToken"), .none⟩⟩).browser.trace
          = w.browser.trace ++ rest ∧
          ∀ op, op ≠ Op.fetchCartItems → op ≠ Op.clearAuthToken → callCount op rest = 0 := by
      intro error app
      unfold updateCartCatch
      split
      · refine ⟨[.called .fetchCartItems, .fetch ⟨"GET", API_BASE_URL ++ "/cart",
          getAuthHeaders (w.browser.storage.getItem "jwtToken"), .none⟩,
          .called .clearAuthToken], ?_, ?_⟩
        · simp [handleLogout, clearAuthToken, Browser.call, Browser.send]
        · intro op h1 h2
          simp [callCount, h1.symm, h2.symm]
      · refine ⟨[.called .fetchCartItems, .fetch ⟨"GET", API_BASE_URL ++ "/cart",
          getAuthHeaders (w.browser.storage.getItem "jwtToken"), .none⟩], ?_, ?_⟩
        · simp [Browser.call, Browser.send]
        · intro op h1 _
          simp [callCount, h1.symm]
    cases res with
    | error error => exact hcatch error w.app
    | ok data =>
      simp only
      split
      · exact hcatch _ w.app
      · refine ⟨[.called .fetchCartItems, .fetch ⟨"GET", API_BASE_URL ++ "/cart",
          getAuthHeaders (w.browser.storage.getItem "jwtToken"), .none⟩], ?_, ?_⟩
        · simp [Browser.call, Browser.send]
        · intro op h1 _
          simp [callCount, h1.symm]
  · exact ⟨[], by simp, fun _ _ _ => rfl⟩

/-- C16: `removeCartItem` sends `POST /cart/remove` with exactly the given `productId` and
quantity in the body; in a logged-in state `handleRemoveFromCart` makes this call once with
quantity 1 and `handleRemoveAllOfItem` makes it once with quantity -1, as the first request
of the handler. -/
theorem remove_requests_follow_convention {ν : Type} (net : Network ν) (productId : String)
    (quantity : Int) (token : Option String) (b : Browser ν) (w : World ν)
    (hlog : w.app.isLoggedIn = true) :
    (removeCartItem net productId quantity token b).2.trace = b.trace ++
      [.called .removeCartItem, .fetch ⟨"POST", API_BASE_URL ++ "/cart/remove",
        getAuthHeaders token, .cartLine productId quantity⟩] ∧
    (∃ rest, (handleRemoveFromCart net productId w).browser.trace = w.browser.trace ++
      [.called .removeCartItem, .fetch ⟨"POST", API_BASE_URL ++ "/cart/remove",
        getAuthHeaders (w.browser.storage.getItem "jwtToken"), .cartLine productId 1⟩] ++ rest ∧
      callCount Op.removeCartItem rest = 0) ∧
    (∃ rest, (handleRemoveAllOfItem net productId w).browser.trace = w.browser.trace ++
      [.called .removeCartItem, .fetch ⟨"POST", API_BASE_URL ++ "/cart/remove",
        getAuthHeaders (w.browser.storage.getItem "jwtToken"), .cartLine productId (-1)⟩] ++ rest ∧
      callCount Op.removeCartItem rest = 0) := by
  refine ⟨?_, ?_, ?_⟩
  · rw [removeCartItem_browser]
    simp [Browser.call, Browser.send]
  · have hb := removeCartItem_browser net productId 1 (w.browser.storage.getItem "jwtToken")
      w.browser
    rcases hm : removeCartItem net productId 1 (w.browser.storage.getItem "jwtToken") w.browser
      with ⟨res, b1⟩
    rw [hm] at hb
    simp only at hb
    cases res with
    | error e =>
      refine ⟨[], ?_, rfl⟩
      simp [handleRemoveFromCart, hlog, hm, hb, Browser.call, Browser.send]
    | ok u =>
      obtain ⟨rest, h1, h2⟩ := updateCartFromBackend_trace net w.app.isLoggedIn
        ⟨{ w.app with fetchError := none }, b1⟩
      refine ⟨rest, ?_, h2 _ (by decide) (by decide)⟩
      simp only [handleRemoveFromCart, hlog, hm, Bool.not_true, Bool.false_eq_true, if_false] at h1 ⊢
      rw [h1, hb]
      simp [Browser.call, Browser.send]
  · have hb := removeCartItem_browser net productId (-1)
      (w.browser.storage.getItem "jwtToken") w.browser
    rcases hm : removeCartItem net productId (-1) (w.browser.storage.getItem "jwtToken")
      w.browser with ⟨res, b1⟩
    rw [hm] at hb
    simp only at hb
    cases res with
    | error e =>
      refine ⟨[], ?_, rfl⟩
      simp [handleRemoveAllOfItem, hlog, hm, hb, Browser.call, Browser.send]
    | ok u =>
      obtain ⟨rest, h1, h2⟩ := updateCartFromBackend_trace net w.app.isLoggedIn
        ⟨{ w.app with fetchError := none }, b1⟩
      refine ⟨rest, ?_, h2 _ (by decide) (by decide)⟩
      simp only [handleRemoveAllOfItem, hlog, hm, Bool.not_true, Bool.false_eq_true, if_false] at h1 ⊢
      rw [h1, hb]
      simp [Browser.call, Browser.send]

/-- C16 at a concrete input: a shopper removes product `p1` entirely. -/
theorem remove_requests_follow_convention_witness :
    ∃ rest, (handleRemoveAllOfItem countingCart "p1" (shopper exampleCart)).browser.trace
      = (shopper exampleCart).browser.trace ++
        [.called .removeCartItem, .fetch ⟨"POST", API_BASE_URL ++ "/cart/remove",
          getAuthHeaders ((shopper exampleCart).browser.storage.getItem "jwtToken"),
          .cartLine "p1" (-1)⟩] ++ rest ∧
      callCount Op.removeCartItem rest = 0 :=
  (remove_requests_follow_convention countingCart "p1" 1 (some "tok-1")
    (shopper exampleCart).browser (shopper exampleCart) rfl).2.2


theorem placeOrder_browser {ν : Type} (net : Network ν) (cart : List (CartItem ν))
    (shipping : ShippingDetails) (b : Browser ν)
    (htok : truthyItem (b.storage.getItem "jwtToken") = true) :
    (placeOrder net cart shipping b).2 =
      (b.call Op.placeOrder).send ⟨"POST", API_BASE_URL ++ "/orders",
        [("Content-Type", "application/json"),
          ("Authorization", "Bearer " ++ tokenStr (b.storage.getItem "jwtToken"))],
        .order (cart.map fun item => ⟨item.id, item.quantity⟩) shipping⟩ := by
  unfold placeOrder
  simp only [getAuthToken, Browser.call, htok, Bool.not_true, Bool.false_eq_true, if_false]
  split
  · rfl
  · split <;> rfl

/-- C17: when a token is stored, `placeOrder` sends one request, `POST /orders`, whose body
holds the four shipping fields as given and an `items` array of the same length as the cart
whose entry at each position is the `id` and the `quantity` of the cart entry at that
position and nothing else; `handleCheckout` passes it the current cart and its fixed shipping
details. -/
theorem placeOrder_request_body {ν : Type} (net : Network ν) (cart : List (CartItem ν))
    (shipping : ShippingDetails) (b : Browser ν) (app : AppState ν)
    (htok : truthyItem (b.storage.getItem "jwtToken") = true) :
    ∃ items : List (OrderItem ν),
      (placeOrder net cart shipping b).2.trace = b.trace ++
        [.called .placeOrder, .fetch ⟨"POST", API_BASE_URL ++ "/orders",
          [("Content-Type", "application/json"),
            ("Authorization", "Bearer " ++ tokenStr (b.storage.getItem "jwtToken"))],
          .order items shipping⟩] ∧
      items.length = cart.length ∧
      (∀ i (h : i < cart.length),
        items[i]? = some { productId := cart[i].id, quantity := cart[i].quantity }) ∧
      (app.isLoggedIn = true → app.cartItems ≠ [] →
        (handleCheckout net ⟨app, b⟩).browser.trace
          = (placeOrder net app.cartItems shippingDetails b).2.trace) := by
  refine ⟨cart.map fun item => ⟨item.id, item.quantity⟩, ?_, ?_, ?_, ?_⟩
  · rw [placeOrder_browser net cart shipping b htok]
    simp [Browser.call, Browser.send]
  · simp
  · intro i h
    simp [List.getElem?_map, List.getElem?_eq_getElem h]
  · intro hlog hcart
    have hlen : ¬ app.cartItems.length = 0 := by
      intro h
      exact hcart (List.length_eq_zero.mp h)
    rcases hp : placeOrder net app.cartItems shippingDetails b with ⟨res, b1⟩
    cases res <;> simp [handleCheckout, hlog, hlen, hp]

/-- C17 at the example cart: the items sent are `p1` with quantity 2. -/
theorem placeOrder_request_body_witness :
    ∃ items : List (OrderItem Int),
      (placeOrder (respond orderConfirmation) exampleCart shippingDetails
        (shopper exampleCart).browser).2.trace = (shopper exampleCart).browser.trace ++
        [.called .placeOrder, .fetch ⟨"POST", API_BASE_URL ++ "/orders",
          [("Content-Type", "application/json"),
            ("Authorization", "Bearer " ++
              tokenStr ((shopper exampleCart).browser.storage.getItem "jwtToken"))],
          .order items shippingDetails⟩] ∧
      items.length = exampleCart.length ∧
      (∀ i (h : i < exampleCart.length),
        items[i]? = some { productId := exampleCart[i].id,
                           quantity := exampleCart[i].quantity }) ∧
      ((shopper exampleCart).app.isLoggedIn = true → (shopper exampleCart).app.cartItems ≠ [] →
        (handleCheckout (respond orderConfirmation)
          ⟨(shopper exampleCart).app, (shopper exampleCart).browser⟩).browser.trace
          = (placeOrder (respond orderConfirmation) (shopper exampleCart).app.cartItems
              shippingDetails (shopper exampleCart).browser).2.trace) :=
  placeOrder_request_body (respond orderConfirmation) exampleCart shippingDetails
    (shopper exampleCart).browser (shopper exampleCart).app rfl

/-! ## Mutations while logged out, and session expiry outside the cart fetch -/

/-- C18 (as amended): with `isLoggedIn` false, `handleRemoveFromCart` and
`handleRemoveAllOfItem` return at once: no call, no request, and no change of the state at
all, so no error is set; `handleAddToCart` alone sets the log-in message, also without any
call; and `updateCartFromBackend` sets the cart to the empty list without any call. -/
theorem logged_out_mutations_rejected {ν : Type} (net : Network ν) (product : Product ν)
    (productId : String) (w : World ν) (h : w.app.isLoggedIn = false) :
    handleRemoveFromCart net productId w = w ∧
    handleRemoveAllOfItem net productId w = w ∧
    (handleAddToCart net product w).browser = w.browser ∧
    (handleAddToCart net product w).app.fetchError
      = some "Please log in to add items to your cart." ∧
    (updateCartFromBackend net w.app.isLoggedIn w).app.cartItems = [] ∧
    (updateCartFromBackend net w.app.isLoggedIn w).browser = w.browser := by
  simp [handleRemoveFromCart, handleRemoveAllOfItem, handleAddToCart, updateCartFromBackend, h]

/-- C18 (as amended) at a concrete input: a visitor. -/
theorem logged_out_mutations_rejected_witness :
    handleRemoveFromCart (respond orderConfirmation) "p1" visitor = visitor ∧
    handleRemoveAllOfItem (respond orderConfirmation) "p1" visitor = visitor :=
  ⟨(logged_out_mutations_rejected (respond orderConfirmation) widget "p1" visitor rfl).1,
   (logged_out_mutations_rejected (respond orderConfirmation) widget "p1" visitor rfl).2.1⟩

/-- C18 as stated fails: for a visitor, `handleRemoveFromCart` and `handleRemoveAllOfItem`
set no error: both error cells stay without a message and no banner is shown. -/
theorem logged_out_remove_sets_no_error :
    errorSet (handleRemoveFromCart (respond orderConfirmation) "p1" visitor).app = false ∧
    errorSet (handleRemoveAllOfItem (respond orderConfirmation) "p1" visitor).app = false ∧
    alertBanner (handleRemoveFromCart (respond orderConfirmation) "p1" visitor).app = none ∧
    alertBanner (handleRemoveAllOfItem (respond orderConfirmation) "p1" visitor).app = none := by
  decide

/-- C19 at the failing input: a shopper's request is answered 401 `Session expired`. After
`handleAddToCart`, `handleRemoveFromCart`, `handleRemoveAllOfItem` and `handleCheckout` the
error text is shown but no logout has run: `clearAuthToken` was never called, the token is
still stored, `isLoggedIn` is still true and the cart is unchanged; the same answer to the
cart fetch of `updateCartFromBackend` does log the user out. -/
theorem session_expiry_outside_cart_fetch :
    ((handleAddToCart (respond sessionExpired) widget (shopper exampleCart)).app.fetchError
        = some "HTTP error! status: 401 - Session expired" ∧
      (handleAddToCart (respond sessionExpired) widget (shopper exampleCart)).app.isLoggedIn
        = true ∧
      (handleAddToCart (respond sessionExpired) widget (shopper exampleCart)).app.cartItems
        = exampleCart ∧
      (handleAddToCart (respond sessionExpired) widget
        (shopper exampleCart)).browser.storage.getItem "jwtToken" = some "tok-1" ∧
      callCount Op.clearAuthToken (handleAddToCart (respond sessionExpired) widget
        (shopper exampleCart)).browser.trace = 0) ∧
    ((handleRemoveFromCart (respond sessionExpired) "p1" (shopper exampleCart)).app.fetchError
        = some "HTTP error! status: 401 - Session expired" ∧
      (handleRemoveFromCart (respond sessionExpired) "p1" (shopper exampleCart)).app.isLoggedIn
        = true ∧
      callCount Op.clearAuthToken (handleRemoveFromCart (respond sessionExpired) "p1"
        (shopper exampleCart)).browser.trace = 0) ∧
    ((handleRemoveAllOfItem (respond sessionExpired) "p1" (shopper exampleCart)).app.fetchError
        = some "HTTP error! status: 401 - Session expired" ∧
      (handleRemoveAllOfItem (respond sessionExpired) "p1" (shopper exampleCart)).app.isLoggedIn
        = true ∧
      callCount Op.clearAuthToken (handleRemoveAllOfItem (respond sessionExpired) "p1"
        (shopper exampleCart)).browser.trace = 0) ∧
    ((handleCheckout (respond sessionExpired) (shopper exampleCart)).app.checkoutError
        = some "HTTP error! status: 401 - Session expired" ∧
      (handleCheckout (respond sessionExpired) (shopper exampleCart)).app.isLoggedIn = true ∧
      (handleCheckout (respond sessionExpired) (shopper exampleCart)).app.cartItems
        = exampleCart ∧
      callCount Op.clearAuthToken (handleCheckout (respond sessionExpired)
        (shopper exampleCart)).browser.trace = 0) ∧
    ((updateCartFromBackend (respond sessionExpired) true (shopper exampleCart)).app.isLoggedIn
        = false ∧
      callCount Op.clearAuthToken (updateCartFromBackend (respond sessionExpired) true
        (shopper exampleCart)).browser.trace = 1) := by
  decide


/-! ## Error and notice in the banner -/

theorem handleLogout_notice {ν : Type} (w : World ν) :
    (handleLogout w).app.showCheckoutMessage = w.app.showCheckoutMessage := rfl

theorem updateCartFromBackend_notice {ν : Type} (net : Network ν) (flag : Bool) (w : World ν) :
    (updateCartFromBackend net flag w).app.showCheckoutMessage = w.app.showCheckoutMessage := by
  have hcatch : ∀ (error : JsError) (w1 : World ν),
      (updateCartCatch error w1).app.showCheckoutMessage = w1.app.showCheckoutMessage := by
    intro error w1
    unfold updateCartCatch
    split <;> rfl
  unfold updateCartFromBackend
  split
  · rcases fetchCartItems net (w.browser.storage.getItem "jwtToken") w.browser with ⟨res, b⟩
    cases res with
    | error error => exact hcatch error _
    | ok data =>
      simp only
      split
      · exact hcatch _ _
      · rfl
  · rfl

theorem cartEffect_notice {ν : Type} (net : Network ν) (prev : Bool) (w : World ν) :
    (cartEffect net prev w).app.showCheckoutMessage = w.app.showCheckoutMessage := by
  unfold cartEffect
  split
  · rfl
  · exact updateCartFromBackend_notice net _ w

theorem afterRender_notice {ν : Type} (net : Network ν) (prev : Bool) (w : World ν) :
    (afterRender net prev w).app.showCheckoutMessage = w.app.showCheckoutMessage := by
  unfold afterRender
  rw [cartEffect_notice, cartEffect_notice]

theorem afterRender_same {ν : Type} (net : Network ν) (w : World ν) :
    afterRender net w.app.isLoggedIn w = w := by
  simp [afterRender, cartEffect]

theorem afterAuth_notice {ν : Type} (net : Network ν) (fallback : String)
    (response : JsonBody ν) (w : World ν) :
    (afterAuth net fallback response w).app.showCheckoutMessage
      = w.app.showCheckoutMessage := by
  unfold afterAuth
  simp only
  split
  · rw [updateCartFromBackend_notice]
  · rfl
  · rfl

theorem applyCartOp_notice {ν : Type} (net : Network ν) (op : CartOp ν) (w : World ν) :
    (applyCartOp net op w).app.showCheckoutMessage = w.app.showCheckoutMessage := by
  cases op with
  | add product =>
    simp only [applyCartOp, handleAddToCart]
    split
    · rfl
    · rcases addToCart net product.id 1 (w.browser.storage.getItem "jwtToken") w.browser
        with ⟨res, b⟩
      cases res with
      | error e => rfl
      | ok data => exact updateCartFromBackend_notice net _ _
  | decrement productId =>
    simp only [applyCartOp, handleRemoveFromCart]
    split
    · rfl
    · rcases removeCartItem net productId 1 (w.browser.storage.getItem "jwtToken") w.browser
        with ⟨res, b⟩
      cases res with
      | error e => rfl
      | ok data => exact updateCartFromBackend_notice net _ _
  | remove productId =>
    simp only [applyCartOp, handleRemoveAllOfItem]
    split
    · rfl
    · rcases removeCartItem net productId (-1) (w.browser.storage.getItem "jwtToken")
        w.browser with ⟨res, b⟩
      cases res with
      | error e => rfl
      | ok data => exact updateCartFromBackend_notice net _ _

theorem step_auth_notice {ν : Type} (net : Network ν) (name email password : String)
    (w : World ν) :
    (handleLoginSuccess net email password w).app.showCheckoutMessage
      = w.app.showCheckoutMessage ∧
    (handleRegisterSuccess net name email password w).app.showCheckoutMessage
      = w.app.showCheckoutMessage := by
  constructor
  · unfold handleLoginSuccess
    rcases loginUser net email password w.browser with ⟨res, b⟩
    cases res with
    | error e => rfl
    | ok data => exact afterAuth_notice net _ data _
  · unfold handleRegisterSuccess
    rcases registerUser net name email password w.browser with ⟨res, b⟩
    cases res with
    | error e => rfl
    | ok data => exact afterAuth_notice net _ data _

theorem fireTimer_notice {ν : Type} (w : World ν)
    (h : (fireTimer w).app.showCheckoutMessage = true) : w.app.showCheckoutMessage = true := by
  unfold fireTimer at h
  split at h
  · exact h
  · rename_i t rest _
    cases t with
    | mk delay action => cases action; simp [runTimer] at h

theorem handleCheckout_notice {ν : Type} (net : Network ν) (w : World ν)
    (hoff : w.app.showCheckoutMessage = false)
    (hon : (handleCheckout net w).app.showCheckoutMessage = true) :
    errorSet (handleCheckout net w).app = false ∧
    (handleCheckout net w).app.isLoggedIn = w.app.isLoggedIn := by
  by_cases h1 : w.app.isLoggedIn = true
  · by_cases h2 : w.app.cartItems.length = 0
    · simp [handleCheckout, h1, h2, hoff] at hon
    · rcases hp : placeOrder net w.app.cartItems shippingDetails w.browser with ⟨res, b⟩
      cases res with
      | error e => simp [handleCheckout, h1, h2, hp, hoff] at hon
      | ok data => simp [handleCheckout, h1, h2, hp, errorSet, truthyItem]
  · simp [handleCheckout, h1, hoff] at hon

theorem alertBanner_cases {ν : Type} (app : AppState ν) :
    (errorSet app = true → ∃ title text, alertBanner app = some ⟨true, title, text⟩) ∧
    (errorSet app = false → app.showCheckoutMessage = true →
      alertBanner app = some ⟨false, "Order Placed!",
        "Your order has been successfully placed. Thank you for shopping with us!"⟩) ∧
    (errorSet app = false → app.showCheckoutMessage = false → alertBanner app = none) := by
  unfold errorSet alertBanner
  refine ⟨?_, ?_, ?_⟩
  · intro h
    rw [h]
    simp
  · intro h hs
    simp only [Bool.or_eq_false_iff] at h
    simp [h.1, h.2, hs]
  · intro h hs
    simp only [Bool.or_eq_false_iff] at h
    simp [h.1, h.2, hs]

theorem handleCheckout_isLoggedIn {ν : Type} (net : Network ν) (w : World ν) :
    (handleCheckout net w).app.isLoggedIn = w.app.isLoggedIn := by
  by_cases h1 : w.app.isLoggedIn = true
  · by_cases h2 : w.app.cartItems.length = 0
    · simp [handleCheckout, h1, h2]
    · rcases hp : placeOrder net w.app.cartItems shippingDetails w.browser with ⟨res, b⟩
      cases res <;> simp [handleCheckout, h1, h2, hp]
  · simp only [Bool.not_eq_true] at h1
    simp [handleCheckout, h1]

theorem handleCheckout_error_keeps_notice {ν : Type} (net : Network ν) (w : World ν)
    (herr : errorSet (handleCheckout net w).app = true) :
    (handleCheckout net w).app.showCheckoutMessage = w.app.showCheckoutMessage := by
  by_cases h1 : w.app.isLoggedIn = true
  · by_cases h2 : w.app.cartItems.length = 0
    · simp [handleCheckout, h1, h2]
    · rcases hp : placeOrder net w.app.cartItems shippingDetails w.browser with ⟨res, b⟩
      cases res with
      | error e => simp [handleCheckout, h1, h2, hp]
      | ok data => simp [handleCheckout, h1, h2, hp, errorSet, truthyItem] at herr
  · simp only [Bool.not_eq_true] at h1
    simp [handleCheckout, h1]

/-- C11 (as amended): the alert banner displays at most one of the transient error and the
success notice: in every state it is the error box when `fetchError` or `checkoutError` holds
a message, the success notice only when neither does, and absent otherwise. A transition
that turns the notice on leaves both error cells without a message. A login, a registration,
a cart operation or a checkout that ends with an error set leaves `showCheckoutMessage` as it
was, so an error and the notice can both be set, and then only the error is displayed. -/
theorem banner_shows_one_message {ν : Type} (net : Network ν) :
    (∀ (a : Action ν) (w : World ν), w.app.showCheckoutMessage = false →
      (dispatch net a w).app.showCheckoutMessage = true →
      errorSet (dispatch net a w).app = false) ∧
    (∀ app : AppState ν,
      (errorSet app = true → ∃ title text, alertBanner app = some ⟨true, title, text⟩) ∧
      (errorSet app = false → app.showCheckoutMessage = true →
        alertBanner app = some ⟨false, "Order Placed!",
          "Your order has been successfully placed. Thank you for shopping with us!"⟩) ∧
      (errorSet app = false → app.showCheckoutMessage = false → alertBanner app = none)) ∧
    (∀ (a : Action ν) (v : World ν), a ≠ .logout → a ≠ .timer → a ≠ .dismiss →
      errorSet (dispatch net a v).app = true →
      (dispatch net a v).app.showCheckoutMessage = v.app.showCheckoutMessage) := by
  refine ⟨?_, alertBanner_cases, ?_⟩
  · intro a w hoff hon
    unfold dispatch at hon ⊢
    rw [afterRender_notice] at hon
    cases a with
    | login email password =>
      rw [step, (step_auth_notice net "" email password w).1, hoff] at hon
      cases hon
    | register name email password =>
      rw [step, (step_auth_notice net name email password w).2, hoff] at hon
      cases hon
    | logout =>
      rw [step, handleLogout_notice, hoff] at hon
      cases hon
    | cart op =>
      rw [step, applyCartOp_notice, hoff] at hon
      cases hon
    | checkout =>
      rw [step] at hon ⊢
      obtain ⟨h1, h2⟩ := handleCheckout_notice net w hoff hon
      rw [← h2, afterRender_same]
      exact h1
    | timer =>
      rw [step] at hon
      rw [fireTimer_notice w hon] at hoff
      cases hoff
    | dismiss =>
      simp [step, dismissAlert] at hon
  · intro a v h1 h2 h3 herr
    unfold dispatch at herr ⊢
    cases a with
    | login email password =>
      rw [afterRender_notice]
      exact (step_auth_notice net "" email password v).1
    | register name email password =>
      rw [afterRender_notice]
      exact (step_auth_notice net name email password v).2
    | logout => exact absurd rfl h1
    | cart op =>
      rw [afterRender_notice]
      exact applyCartOp_notice net op v
    | checkout =>
      rw [step] at herr ⊢
      rw [← handleCheckout_isLoggedIn net v, afterRender_same] at herr ⊢
      exact handleCheckout_error_keeps_notice net v herr
    | timer => exact absurd rfl h2
    | dismiss => exact absurd rfl h3

/-- C11 (as amended) at a concrete run: after logging in and adding the widget, checking
out turns the notice on and no error is set. -/
theorem banner_shows_one_message_witness :
    errorSet (dispatch storeBackend .checkout
      (run storeBackend [.login "ann@example.com" "pw", .cart (.add widget)] visitor)).app
      = false :=
  (banner_shows_one_message storeBackend).1 .checkout
    (run storeBackend [.login "ann@example.com" "pw", .cart (.add widget)] visitor) rfl rfl

/-- C11 as stated fails: from a fresh load, logging in, adding the widget, checking out and
adding the widget again, which the backend now refuses (before the notice timer fires),
reaches a state in which `fetchError` holds a message while `showCheckoutMessage` is true. -/
theorem error_and_notice_both_set :
    (run singleStockBackend [.login "ann@example.com" "pw", .cart (.add widget), .checkout,
      .cart (.add widget)] visitor).app.fetchError
      = some "HTTP error! status: 409 - Out of stock" ∧
    (run singleStockBackend [.login "ann@example.com" "pw", .cart (.add widget), .checkout,
      .cart (.add widget)] visitor).app.showCheckoutMessage = true ∧
    errorSet (run singleStockBackend [.login "ann@example.com" "pw", .cart (.add widget),
      .checkout, .cart (.add widget)] visitor).app = true := by
  decide

/-! ## The render effect settles in two rounds -/

theorem updateCartFromBackend_isLoggedIn {ν : Type} (net : Network ν) (flag : Bool)
    (w : World ν) :
    (updateCartFromBackend net flag w).app.isLoggedIn = w.app.isLoggedIn ∨
    (updateCartFromBackend net flag w).app.isLoggedIn = false := by
  have hcatch : ∀ (error : JsError) (w1 : World ν),
      (updateCartCatch error w1).app.isLoggedIn = w1.app.isLoggedIn ∨
      (updateCartCatch error w1).app.isLoggedIn = false := by
    intro error w1
    unfold updateCartCatch
    split
    · exact Or.inr rfl
    · exact Or.inl rfl
  unfold updateCartFromBackend
  split
  · rcases fetchCartItems net (w.browser.storage.getItem "jwtToken") w.browser with ⟨res, b⟩
    cases res with
    | error error => exact hcatch error _
    | ok data =>
      simp only
      split
      · exact hcatch _ _
      · exact Or.inl rfl
  · exact Or.inl rfl

theorem cartEffect_isLoggedIn {ν : Type} (net : Network ν) (prev : Bool) (w : World ν) :
    (cartEffect net prev w).app.isLoggedIn = w.app.isLoggedIn ∨
    (cartEffect net prev w).app.isLoggedIn = false := by
  unfold cartEffect
  split
  · exact Or.inl rfl
  · exact updateCartFromBackend_isLoggedIn net _ w

/-- After the two rounds of `afterRender` the cart effect has nothing left to do: the value
of `isLoggedIn` is the one the second round started from. -/
theorem afterRender_stable {ν : Type} (net : Network ν) (prev : Bool) (w : World ν) :
    cartEffect net (cartEffect net prev w).app.isLoggedIn (afterRender net prev w)
      = afterRender net prev w := by
  have hfact := cartEffect_isLoggedIn net prev w
  unfold afterRender
  generalize cartEffect net prev w = w1 at hfact ⊢
  have key : (cartEffect net w.app.isLoggedIn w1).app.isLoggedIn = w1.app.isLoggedIn := by
    unfold cartEffect
    split
    · rfl
    · rename_i hne
      rcases hfact with h | h
      · exact absurd h hne
      · simp [updateCartFromBackend, h]
  generalize cartEffect net w.app.isLoggedIn w1 = w2 at key ⊢
  simp [cartEffect, key]


/-! ## The session store: clearing and loading -/

/-- C21: `clearAuthToken` is a total function on storage; applying it twice gives the same
storage as applying it once, the result has none of the keys `jwtToken`, `userId` and
`username`, and every other key `k` keeps its value. -/
theorem clearAuthToken_idempotent {ν : Type} (b : Browser ν) (k : String)
    (h1 : k ≠ "jwtToken") (h2 : k ≠ "userId") (h3 : k ≠ "username") :
    (clearAuthToken (clearAuthToken b)).storage = (clearAuthToken b).storage ∧
    (clearAuthToken b).storage.getItem "jwtToken" = none ∧
    (clearAuthToken b).storage.getItem "userId" = none ∧
    (clearAuthToken b).storage.getItem "username" = none ∧
    (clearAuthToken b).storage.getItem k = b.storage.getItem k := by
  refine ⟨?_, ?_, ?_, ?_, ?_⟩
  · funext key
    simp only [clearAuthToken, Browser.call, Storage.removeItem]
    split <;> [rfl; (split <;> [rfl; (split <;> rfl)])]
  · simp [clearAuthToken, Browser.call, Storage.getItem, Storage.removeItem]
  · simp [clearAuthToken, Browser.call, Storage.getItem, Storage.removeItem]
  · simp [clearAuthToken, Browser.call, Storage.getItem, Storage.removeItem]
  · simp [clearAuthToken, Browser.call, Storage.getItem, Storage.removeItem, h1, h2, h3]

/-- C21 at a concrete input: storage holding a session and the key `theme`. -/
theorem clearAuthToken_idempotent_witness :
    (clearAuthToken ({ storage := storageWithTheme, trace := [], timers := [] } :
      Browser Int)).storage.getItem "jwtToken" = none ∧
    (clearAuthToken ({ storage := storageWithTheme, trace := [], timers := [] } :
      Browser Int)).storage.getItem "theme" = storageWithTheme.getItem "theme" ∧
    storageWithTheme.getItem "theme" = some "dark" ∧
    storageWithTheme.getItem "jwtToken" = some "tok-1" :=
  ⟨(clearAuthToken_idempotent ({ storage := storageWithTheme, trace := [], timers := [] } :
      Browser Int) "theme" (by decide) (by decide) (by decide)).2.1,
   (clearAuthToken_idempotent ({ storage := storageWithTheme, trace := [], timers := [] } :
      Browser Int) "theme" (by decide) (by decide) (by decide)).2.2.2.2,
   rfl, rfl⟩

/-- C22: on application load the startup effect sets `isLoggedIn` to true exactly when
`jwtToken`, `userId` and `username` are all stored with non-empty values, and then
`currentUser` is the stored `userId` and `username`; otherwise `isLoggedIn` stays false and
`currentUser` null. After a login response with non-empty `jwtToken`, `userId` and `username`
has been persisted, loading returns that identity; after `clearAuthToken`, loading gives the
empty session. The effect changes nothing else. -/
theorem startup_restores_session {ν : Type} (fields : List (String × JsVal))
    (jwtToken userId username : String)
    (ht : fields.lookup "jwtToken" = some (.str jwtToken))
    (hu : fields.lookup "userId" = some (.str userId))
    (hn : fields.lookup "username" = some (.str username))
    (ht' : jwtToken ≠ "") (hu' : userId ≠ "") (hn' : username ≠ "") :
    (∀ b : Browser ν, (loadApp b).app.isLoggedIn =
      (truthyItem (b.storage.getItem "jwtToken") && truthyItem (b.storage.getItem "userId")
        && truthyItem (b.storage.getItem "username"))) ∧
    (∀ (b : Browser ν) (t u n : String), b.storage.getItem "jwtToken" = some t →
      b.storage.getItem "userId" = some u → b.storage.getItem "username" = some n →
      t ≠ "" → u ≠ "" → n ≠ "" →
      (loadApp b).app.isLoggedIn = true ∧ (loadApp b).app.currentUser = some ⟨.str u, .str n⟩) ∧
    (∀ b : Browser ν, (truthyItem (b.storage.getItem "jwtToken")
        && truthyItem (b.storage.getItem "userId")
        && truthyItem (b.storage.getItem "username")) = false →
      (loadApp b).app.isLoggedIn = false ∧ (loadApp b).app.currentUser = none) ∧
    (∀ b : Browser ν,
      (loadApp (persistSession (.object fields) b).2).app.isLoggedIn = true ∧
      (loadApp (persistSession (.object fields) b).2).app.currentUser
        = some ⟨.str userId, .str username⟩) ∧
    (∀ b : Browser ν, (loadApp (clearAuthToken b)).app.isLoggedIn = false ∧
      (loadApp (clearAuthToken b)).app.currentUser = none) ∧
    (∀ b : Browser ν, (loadApp b).browser = b ∧
      (loadApp b).app.cartItems = [] ∧ (loadApp b).app.currentPage = "products" ∧
      (loadApp b).app.fetchError = none ∧ (loadApp b).app.showCheckoutMessage = false) := by
  have hload : ∀ (b : Browser ν) (t u n : String), b.storage.getItem "jwtToken" = some t →
      b.storage.getItem "userId" = some u → b.storage.getItem "username" = some n →
      t ≠ "" → u ≠ "" → n ≠ "" →
      (loadApp b).app.isLoggedIn = true ∧
        (loadApp b).app.currentUser = some ⟨.str u, .str n⟩ := by
    intro b t u n h1 h2 h3 e1 e2 e3
    simp [loadApp, startupEffect, h1, h2, h3, truthyItem, e1, e2, e3]
  refine ⟨?_, hload, ?_, ?_, ?_, ?_⟩
  · intro b
    unfold loadApp startupEffect
    simp only
    split
    · rename_i h
      rw [h]
    · rename_i h
      simp only [Bool.not_eq_true] at h
      rw [h]
      rfl
  · intro b h
    simp [loadApp, startupEffect, h, AppState.initial]
  · intro b
    apply hload _ jwtToken userId username _ _ _ ht' hu' hn' <;>
      simp [persistSession, JsonBody.prop, ht, hu, hn, setAuthToken, Storage.getItem,
        Storage.setItem, JsVal.toStr]
  · intro b
    simp [loadApp, startupEffect, clearAuthToken, Browser.call, Storage.getItem,
      Storage.removeItem, truthyItem, AppState.initial]
  · intro b
    unfold loadApp startupEffect
    simp only
    split <;> simp [AppState.initial]

/-- C22 at a concrete input: the session of the login example is persisted, then loaded. -/
theorem startup_restores_session_witness :
    (loadApp (persistSession (.object [("jwtToken", .str "tok-1"), ("userId", .str "u1"),
      ("username", .str "ann@example.com")]) (Browser.fresh : Browser Int)).2).app.currentUser
      = some ⟨.str "u1", .str "ann@example.com"⟩ ∧
    (loadApp (clearAuthToken (shopper exampleCart).browser)).app.isLoggedIn = false :=
  ⟨((startup_restores_session
      [("jwtToken", .str "tok-1"), ("userId", .str "u1"), ("username", .str "ann@example.com")]
      "tok-1" "u1" "ann@example.com" rfl rfl rfl (by decide) (by decide) (by decide)).2.2.2.1
      (Browser.fresh : Browser Int)).2,
   ((startup_restores_session
      [("jwtToken", .str "tok-1"), ("userId", .str "u1"), ("username", .str "ann@example.com")]
      "tok-1" "u1" "ann@example.com" rfl rfl rfl (by decide) (by decide) (by decide)).2.2.2.2.1
      (shopper exampleCart).browser).1⟩


/-! ## Checkout without a stored token -/

/-- C24: with no token in storage (the key absent or empty) `placeOrder` throws
`No authentication token found. Please log in.` and sends no request; so `handleCheckout` in
a state with `isLoggedIn` true, a non-empty cart and no stored token sets `checkoutError` to
that message, sends no request, leaves the cart unchanged and does not show the success
notice (`showCheckoutMessage` keeps its value). -/
theorem placeOrder_without_token {ν : Type} (net : Network ν) (cart : List (CartItem ν))
    (shipping : ShippingDetails) (b : Browser ν) (w : World ν)
    (hno : truthyItem (b.storage.getItem "jwtToken") = false)
    (hlog : w.app.isLoggedIn = true) (hcart : w.app.cartItems ≠ [])
    (hnow : truthyItem (w.browser.storage.getItem "jwtToken") = false) :
    placeOrder net cart shipping b
      = (.error ⟨"No authentication token found. Please log in."⟩, b.call Op.placeOrder) ∧
    requestsOf (placeOrder net cart shipping b).2.trace = requestsOf b.trace ∧
    (handleCheckout net w).app.checkoutError
      = some "No authentication token found. Please log in." ∧
    (handleCheckout net w).app.cartItems = w.app.cartItems ∧
    (handleCheckout net w).app.showCheckoutMessage = w.app.showCheckoutMessage ∧
    requestsOf (handleCheckout net w).browser.trace = requestsOf w.browser.trace ∧
    (handleCheckout net w).browser.timers = w.browser.timers := by
  have hp : ∀ (c : List (CartItem ν)) (s : ShippingDetails) (b0 : Browser ν),
      truthyItem (b0.storage.getItem "jwtToken") = false →
      placeOrder net c s b0
        = (.error ⟨"No authentication token found. Please log in."⟩, b0.call Op.placeOrder) := by
    intro c s b0 h
    simp [placeOrder, getAuthToken, Browser.call, h]
  have hlen : ¬ w.app.cartItems.length = 0 := by
    intro h
    exact hcart (List.length_eq_zero.mp h)
  refine ⟨hp cart shipping b hno, ?_, ?_, ?_, ?_, ?_, ?_⟩
  · rw [hp cart shipping b hno]
    simp [Browser.call, requestsOf_append, requestsOf]
  all_goals
    simp [handleCheckout, hlog, hlen, hp w.app.cartItems shippingDetails w.browser hnow, orElse,
      Browser.call, requestsOf_append, requestsOf]

/-- C24 at a concrete input: a logged-in user with the example cart and emptied storage. -/
theorem placeOrder_without_token_witness :
    (handleCheckout (respond orderConfirmation) shopperWithoutToken).app.checkoutError
      = some "No authentication token found. Please log in." ∧
    (handleCheckout (respond orderConfirmation) shopperWithoutToken).app.cartItems
      = shopperWithoutToken.app.cartItems ∧
    requestsOf (handleCheckout (respond orderConfirmation) shopperWithoutToken).browser.trace
      = requestsOf shopperWithoutToken.browser.trace :=
  ⟨(placeOrder_without_token (respond orderConfirmation) exampleCart shippingDetails
      shopperWithoutToken.browser shopperWithoutToken rfl rfl (by decide) rfl).2.2.1,
   (placeOrder_without_token (respond orderConfirmation) exampleCart shippingDetails
      shopperWithoutToken.browser shopperWithoutToken rfl rfl (by decide) rfl).2.2.2.1,
   (placeOrder_without_token (respond orderConfirmation) exampleCart shippingDetails
      shopperWithoutToken.browser shopperWithoutToken rfl rfl (by decide) rfl).2.2.2.2.2.1⟩


/-! ## Cart mutations never patch the cart -/

theorem updateCartFromBackend_cart {ν : Type} (net : Network ν) (flag : Bool) (w : World ν) :
    (updateCartFromBackend net flag w).app.cartItems = w.app.cartItems ∨
    (∃ lines b', fetchCartItems net (w.browser.storage.getItem "jwtToken") w.browser
        = (.ok (.array lines), b') ∧
      (updateCartFromBackend net flag w).app.cartItems = lines.map formatCartItem) ∨
    ((updateCartFromBackend net flag w).app.cartItems = [] ∧
      ((flag && truthyItem (w.browser.storage.getItem "jwtToken")) = false ∨
        (updateCartFromBackend net flag w).app.isLoggedIn = false)) := by
  have hcatch : ∀ (error : JsError) (w1 : World ν),
      (updateCartCatch error w1).app.cartItems = w1.app.cartItems ∨
      ((updateCartCatch error w1).app.cartItems = [] ∧
        (updateCartCatch error w1).app.isLoggedIn = false) := by
    intro error w1
    unfold updateCartCatch
    split
    · exact Or.inr ⟨rfl, rfl⟩
    · exact Or.inl rfl
  unfold updateCartFromBackend
  split
  · rcases hf : fetchCartItems net (w.browser.storage.getItem "jwtToken") w.browser
      with ⟨res, b⟩
    cases res with
    | error error =>
      rcases hcatch error ⟨w.app, b⟩ with h | h
      · exact Or.inl h
      · exact Or.inr (Or.inr ⟨h.1, Or.inr h.2⟩)
    | ok data =>
      cases data with
      | null =>
        rcases hcatch (nullPropertyError "map") ⟨w.app, b⟩ with h | h
        · exact Or.inl h
        · exact Or.inr (Or.inr ⟨h.1, Or.inr h.2⟩)
      | object fields =>
        rcases hcatch (notAFunctionError "data.map") ⟨w.app, b⟩ with h | h
        · exact Or.inl h
        · exact Or.inr (Or.inr ⟨h.1, Or.inr h.2⟩)
      | array lines => exact Or.inr (Or.inl ⟨lines, b, rfl, rfl⟩)
  · rename_i h
    simp only [Bool.not_eq_true] at h
    exact Or.inr (Or.inr ⟨rfl, Or.inl h⟩)

theorem applyCartOp_cart {ν : Type} (net : Network ν) (op : CartOp ν) (w : World ν) :
    (applyCartOp net op w).app.cartItems = w.app.cartItems ∨
    (∃ lines b b', mutationSucceeds net op w = some b ∧
      fetchCartItems net (w.browser.storage.getItem "jwtToken") b = (.ok (.array lines), b') ∧
      (applyCartOp net op w).app.cartItems = lines.map formatCartItem) ∨
    ((applyCartOp net op w).app.cartItems = [] ∧
      (truthyItem (w.browser.storage.getItem "jwtToken") = false ∨
        (applyCartOp net op w).app.isLoggedIn = false)) := by
  by_cases hlog : w.app.isLoggedIn = true
  · have finish : ∀ (app : AppState ν) (b : Browser ν), app.cartItems = w.app.cartItems →
        b.storage = w.browser.storage → mutationSucceeds net op w = some b →
        (updateCartFromBackend net w.app.isLoggedIn ⟨app, b⟩).app.cartItems = w.app.cartItems ∨
        (∃ lines b1 b', mutationSucceeds net op w = some b1 ∧
          fetchCartItems net (w.browser.storage.getItem "jwtToken") b1
            = (.ok (.array lines), b') ∧
          (updateCartFromBackend net w.app.isLoggedIn ⟨app, b⟩).app.cartItems
            = lines.map formatCartItem) ∨
        ((updateCartFromBackend net w.app.isLoggedIn ⟨app, b⟩).app.cartItems = [] ∧
          (truthyItem (w.browser.storage.getItem "jwtToken") = false ∨
            (updateCartFromBackend net w.app.isLoggedIn ⟨app, b⟩).app.isLoggedIn = false)) := by
      intro app b hc hs hm
      rcases updateCartFromBackend_cart net w.app.isLoggedIn ⟨app, b⟩ with h | h | h
      · exact Or.inl (h.trans hc)
      · obtain ⟨lines, b', h1, h2⟩ := h
        simp only [hs] at h1
        exact Or.inr (Or.inl ⟨lines, b, b', hm, h1, h2⟩)
      · refine Or.inr (Or.inr ⟨h.1, ?_⟩)
        rcases h.2 with h2 | h2
        · simp only [hs, hlog, Bool.true_and] at h2
          exact Or.inl h2
        · exact Or.inr h2
    cases op with
    | add product =>
      have hst := addToCart_storage net product.id 1 (w.browser.storage.getItem "jwtToken")
        w.browser
      rcases hm : addToCart net product.id 1 (w.browser.storage.getItem "jwtToken") w.browser
        with ⟨res, b⟩
      rw [hm] at hst
      cases res with
      | error e =>
        left
        simp [applyCartOp, handleAddToCart, hlog, hm]
      | ok data =>
        have := finish { w.app with isCartOpen := true, fetchError := none } b rfl hst
          (by simp [mutationSucceeds, hm])
        simpa only [applyCartOp, handleAddToCart, hlog, hm, Bool.not_true, Bool.false_eq_true,
          if_false] using this
    | decrement productId =>
      have hst := removeCartItem_storage net productId 1 (w.browser.storage.getItem "jwtToken")
        w.browser
      rcases hm : removeCartItem net productId 1 (w.browser.storage.getItem "jwtToken") w.browser
        with ⟨res, b⟩
      rw [hm] at hst
      cases res with
      | error e =>
        left
        simp [applyCartOp, handleRemoveFromCart, hlog, hm]
      | ok data =>
        have := finish { w.app with fetchError := none } b rfl hst
          (by simp [mutationSucceeds, hm])
        simpa only [applyCartOp, handleRemoveFromCart, hlog, hm, Bool.not_true,
          Bool.false_eq_true, if_false] using this
    | remove productId =>
      have hst := removeCartItem_storage net productId (-1)
        (w.browser.storage.getItem "jwtToken") w.browser
      rcases hm : removeCartItem net productId (-1) (w.browser.storage.getItem "jwtToken")
        w.browser with ⟨res, b⟩
      rw [hm] at hst
      cases res with
      | error e =>
        left
        simp [applyCartOp, handleRemoveAllOfItem, hlog, hm]
      | ok data =>
        have := finish { w.app with fetchError := none } b rfl hst
          (by simp [mutationSucceeds, hm])
        simpa only [applyCartOp, handleRemoveAllOfItem, hlog, hm, Bool.not_true,
          Bool.false_eq_true, if_false] using this
  · left
    cases op <;> simp [applyCartOp, handleAddToCart, handleRemoveFromCart,
      handleRemoveAllOfItem, hlog]

/-- C23: in a logged-in state, when the request of a cart mutation (`handleAddToCart`,
`handleRemoveFromCart` or `handleRemoveAllOfItem`) fails, `cartItems` is unchanged and
`fetchError` is the error's message, or the handler's fixed text when that message is empty.
And in every state a cart mutation changes `cartItems` only through `updateCartFromBackend`
after its request has succeeded: afterwards the cart is unchanged, or it is the array the
server returned to the re-fetch, or it is the empty list that `updateCartFromBackend` sets
when no token is stored or when the re-fetch ended in the logout. -/
theorem mutations_never_patch_cart {ν : Type} (net : Network ν) :
    (∀ (op : CartOp ν) (w : World ν) (e : JsError), w.app.isLoggedIn = true →
      mutationError net op w = some e →
      (applyCartOp net op w).app.cartItems = w.app.cartItems ∧
      (applyCartOp net op w).app.fetchError = some (orElse e.message (mutationFallback op))) ∧
    (∀ (op : CartOp ν) (v : World ν),
      (applyCartOp net op v).app.cartItems = v.app.cartItems ∨
      (∃ lines b b', mutationSucceeds net op v = some b ∧
        fetchCartItems net (v.browser.storage.getItem "jwtToken") b
          = (.ok (.array lines), b') ∧
        (applyCartOp net op v).app.cartItems = lines.map formatCartItem) ∨
      ((applyCartOp net op v).app.cartItems = [] ∧
        (truthyItem (v.browser.storage.getItem "jwtToken") = false ∨
          (applyCartOp net op v).app.isLoggedIn = false))) := by
  refine ⟨?_, applyCartOp_cart net⟩
  intro op w e hlog hfail
  cases op with
  | add product =>
    rcases hm : addToCart net product.id 1 (w.browser.storage.getItem "jwtToken") w.browser
      with ⟨res, b⟩
    cases res with
    | ok data => simp [mutationError, hm] at hfail
    | error err =>
      simp only [mutationError, hm, Option.some.injEq] at hfail
      subst hfail
      simp [applyCartOp, handleAddToCart, hlog, hm, mutationFallback]
  | decrement productId =>
    rcases hm : removeCartItem net productId 1 (w.browser.storage.getItem "jwtToken") w.browser
      with ⟨res, b⟩
    cases res with
    | ok data => simp [mutationError, hm] at hfail
    | error err =>
      simp only [mutationError, hm, Option.some.injEq] at hfail
      subst hfail
      simp [applyCartOp, handleRemoveFromCart, hlog, hm, mutationFallback]
  | remove productId =>
    rcases hm : removeCartItem net productId (-1) (w.browser.storage.getItem "jwtToken")
      w.browser with ⟨res, b⟩
    cases res with
    | ok data => simp [mutationError, hm] at hfail
    | error err =>
      simp only [mutationError, hm, Option.some.injEq] at hfail
      subst hfail
      simp [applyCartOp, handleRemoveAllOfItem, hlog, hm, mutationFallback]

/-- C23 at a concrete input: after one accepted addition the backend refuses the next one
with 409 `Out of stock`, while a removal would still be accepted. -/
theorem mutations_never_patch_cart_witness :
    (handleAddToCart singleStockBackend widget
      (handleAddToCart singleStockBackend widget (shopper exampleCart))).app.cartItems
      = (handleAddToCart singleStockBackend widget (shopper exampleCart)).app.cartItems ∧
    (handleAddToCart singleStockBackend widget
      (handleAddToCart singleStockBackend widget (shopper exampleCart))).app.fetchError
      = some (orElse "HTTP error! status: 409 - Out of stock"
          "Failed to add product to cart. Please try again.") ∧
    mutationError singleStockBackend (.decrement "p1")
      (handleAddToCart singleStockBackend widget (shopper exampleCart)) = none :=
  ⟨((mutations_never_patch_cart singleStockBackend).1 (.add widget)
      (handleAddToCart singleStockBackend widget (shopper exampleCart))
      ⟨"HTTP error! status: 409 - Out of stock"⟩ rfl rfl).1,
   ((mutations_never_patch_cart singleStockBackend).1 (.add widget)
      (handleAddToCart singleStockBackend widget (shopper exampleCart))
      ⟨"HTTP error! status: 409 - Out of stock"⟩ rfl rfl).2,
   rfl⟩

/-! ## One submit of the login form -/

theorem persistSession_trace {ν : Type} (data : JsonBody ν) (b : Browser ν) :
    (persistSession data b).2.trace = b.trace := by
  cases data <;> simp [persistSession, JsonBody.prop, setAuthToken]

theorem loginUser_trace {ν : Type} (net : Network ν) (email password : String)
    (b : Browser ν) :
    (loginUser net email password b).2.trace
      = b.trace ++ [.called .loginUser, .fetch (loginRequest email password)] := by
  unfold loginUser
  simp only
  split
  · simp [Browser.call, Browser.send, loginRequest]
  · split
    · simp [Browser.call, Browser.send, loginRequest]
    · split
      · simp [Browser.call, Browser.send, loginRequest]
      · rw [persistSession_trace]
        simp [Browser.call, Browser.send, loginRequest]

theorem afterAuth_trace {ν : Type} (net : Network ν) (fallback : String)
    (response : JsonBody ν) (w : World ν) :
    ∃ rest, (afterAuth net fallback response w).browser.trace = w.browser.trace ++ rest ∧
      callCount Op.loginUser rest = 0 ∧ (w.app.isLoggedIn = false → rest = []) := by
  unfold afterAuth
  simp only
  split
  · rename_i userId username _ _
    obtain ⟨rest, h1, h2⟩ := updateCartFromBackend_trace net w.app.isLoggedIn
      { w with app := { w.app with
          isLoggedIn := true, currentUser := some ⟨userId, username⟩,
          currentPage := "products", fetchError := none } }
    refine ⟨rest, h1, h2 _ (by decide) (by decide), ?_⟩
    intro hout
    rw [hout] at h1
    simp only [updateCartFromBackend, Bool.false_and, Bool.false_eq_true, if_false] at h1
    exact (List.self_eq_append_right.mp h1)
  · exact ⟨[], by simp, rfl, fun _ => rfl⟩
  · exact ⟨[], by simp, rfl, fun _ => rfl⟩

theorem handleLoginSuccess_trace {ν : Type} (net : Network ν) (email password : String)
    (w : World ν) :
    ∃ rest, (handleLoginSuccess net email password w).browser.trace
        = w.browser.trace ++ [.called .loginUser, .fetch (loginRequest email password)] ++ rest ∧
      callCount Op.loginUser rest = 0 ∧ (w.app.isLoggedIn = false → rest = []) := by
  have ht := loginUser_trace net email password w.browser
  unfold handleLoginSuccess
  rcases hl : loginUser net email password w.browser with ⟨res, b⟩
  rw [hl] at ht
  simp only at ht
  cases res with
  | error e => exact ⟨[], by simp [ht], rfl, fun _ => rfl⟩
  | ok response =>
    obtain ⟨rest, h1, h2, h3⟩ := afterAuth_trace net
      "Login failed. Please check your credentials." response { w with browser := b }
    exact ⟨rest, by simp only [h1, ht], h2, h3⟩

/-- C25: one submit of the login form. When the first `loginUser` call fails, the form's own
`error` is set, the controller state is untouched (`handleLoginSuccess` is not invoked) and
exactly one login request has been sent. When it succeeds, the submit continues as
`handleLoginSuccess`, which calls `loginUser` again with the same email and password: two
identical login requests are sent and no third call of `loginUser` is made, and when the
second answer also grants a session to the logged-out user, storage holds the values of the
second answer. -/
theorem login_form_two_requests {ν : Type} (net : Network ν) (form : LoginForm) (w : World ν)
    (res : Except JsError (JsonBody ν)) (b1 : Browser ν)
    (hfirst : loginUser net form.email form.password w.browser = (res, b1)) :
    (∀ err, res = .error err →
      (Login.handleSubmit net form w).1.error
        = orElse err.message "Login failed. Please check your credentials." ∧
      (Login.handleSubmit net form w).2.app = w.app ∧
      (Login.handleSubmit net form w).2.browser.trace = w.browser.trace ++
        [.called .loginUser, .fetch (loginRequest form.email form.password)]) ∧
    (∀ data, res = .ok data →
      (Login.handleSubmit net form w).2
        = handleLoginSuccess net form.email form.password ⟨w.app, b1⟩ ∧
      (∃ rest, (Login.handleSubmit net form w).2.browser.trace = w.browser.trace ++
          [.called .loginUser, .fetch (loginRequest form.email form.password),
           .called .loginUser, .fetch (loginRequest form.email form.password)] ++ rest ∧
        callCount Op.loginUser rest = 0 ∧ (w.app.isLoggedIn = false → rest = [])) ∧
      (∀ (second : HttpResponse ν) (fields : List (String × JsVal)),
        net (requestsOf b1.trace) (loginRequest form.email form.password) = .ok second →
        second.ok = true → second.json = .ok (.object fields) → w.app.isLoggedIn = false →
        (Login.handleSubmit net form w).2.browser.storage.getItem "jwtToken"
          = some ((fields.lookup "jwtToken").getD .undefined).toStr ∧
        (Login.handleSubmit net form w).2.browser.storage.getItem "userId"
          = some ((fields.lookup "userId").getD .undefined).toStr ∧
        (Login.handleSubmit net form w).2.browser.storage.getItem "username"
          = some ((fields.lookup "username").getD .undefined).toStr)) := by
  have ht := loginUser_trace net form.email form.password w.browser
  rw [hfirst] at ht
  simp only at ht
  constructor
  · intro err herr
    subst herr
    simp [Login.handleSubmit, hfirst, ht]
  · intro data hdata
    subst hdata
    have hs : (Login.handleSubmit net form w).2
        = handleLoginSuccess net form.email form.password ⟨w.app, b1⟩ := by
      simp [Login.handleSubmit, hfirst]
    refine ⟨hs, ?_, ?_⟩
    · obtain ⟨rest, h1, h2, h3⟩ := handleLoginSuccess_trace net form.email form.password
        ⟨w.app, b1⟩
      refine ⟨rest, ?_, h2, h3⟩
      rw [hs, h1]
      simp [ht]
    · intro second fields hnet hok hjson hout
      have h2 := loginUser_success net form.email form.password b1 second fields hnet hok hjson
      rw [hs]
      simp only [handleLoginSuccess, h2, afterAuth, JsonBody.prop, updateCartFromBackend, hout,
        Bool.false_and, Bool.false_eq_true, if_false]
      and_intros <;> rfl

/-- C25 at a concrete run: a visitor submits the form to a backend that grants `tok-1` to
the first request and `tok-2` to the second; storage ends with `tok-2`. -/
theorem login_form_two_requests_witness :
    (Login.handleSubmit renewingLogin ⟨"ann@example.com", "pw", "", false⟩
      visitor).2.browser.storage.getItem "jwtToken" = some "tok-2" ∧
    callCount Op.loginUser (Login.handleSubmit renewingLogin ⟨"ann@example.com", "pw", "", false⟩
      visitor).2.browser.trace = 2 :=
  ⟨((login_form_two_requests renewingLogin ⟨"ann@example.com", "pw", "", false⟩ visitor
      (.ok (.object [("jwtToken", .str "tok-1"), ("userId", .str "u1"),
        ("username", .str "ann@example.com")]))
      (loginUser renewingLogin "ann@example.com" "pw" visitor.browser).2 rfl).2 _ rfl).2.2
      sessionRenewed
      [("jwtToken", .str "tok-2"), ("userId", .str "u1"), ("username", .str "ann@example.com")]
      rfl rfl rfl rfl |>.1,
   by decide⟩



end Storefront
